import Mathlib

/-!
# SimpleAES driver: register file, completion channel, interrupt handler, RunOp

A shallow embedding of `src/AES/SimpleAES_Linux.c` and `src/AES/SimpleAES_Linux.h`.

* Register words are natural numbers; `ioread32` and `iowrite32` carry 32-bit
  words, so both reduce modulo `2 ^ 32`.
* The register file is a store: a read returns the word last written. What the
  device itself does to `STAT` and `IRQ` is supplied by the environment of a
  call (the interrupts that fire while the caller sleeps).
* Every function returns, next to its C result, the device state it leaves and
  the list of observable events it performed, in program order.
* Kernel primitives (`dma_alloc_coherent`, `copy_from_user`, `copy_to_user`,
  `wait_event_interruptible`) are external; their outcomes are parameters.
-/

namespace AESDriver

/-! ## Header: register layout -/

/-- Width of a register word moved by `ioread32` / `iowrite32`. -/
def U32_MOD : Nat := 2 ^ 32

/-- All-ones `unsigned long`, the operand of `~` on a mask built from `0x1ul`. -/
def ULONG_MAX : Nat := 2 ^ 64 - 1

def SIMPLEAES_CTRL_OP_Pos : Nat := 0
def SIMPLEAES_CTRL_OP_Mask : Nat := 0x1 <<< SIMPLEAES_CTRL_OP_Pos
def SIMPLEAES_CTRL_IE_Pos : Nat := 1
def SIMPLEAES_CTRL_IE_Mask : Nat := 0x1 <<< SIMPLEAES_CTRL_IE_Pos

def SIMPLEAES_STAT_BUSY_Pos : Nat := 0
def SIMPLEAES_STAT_BUSY_Mask : Nat := 0x1 <<< SIMPLEAES_STAT_BUSY_Pos
def SIMPLEAES_STAT_IRQ_Pos : Nat := 1
def SIMPLEAES_STAT_IRQ_Mask : Nat := 0x1 <<< SIMPLEAES_STAT_IRQ_Pos
def SIMPLEAES_STAT_ERR_Pos : Nat := 2
def SIMPLEAES_STAT_ERR_Mask : Nat := 0x3 <<< SIMPLEAES_STAT_ERR_Pos

def SIMPLEAES_IRQ_COMPLETE_Pos : Nat := 0
def SIMPLEAES_IRQ_COMPLETE_Mask : Nat := 0x1 <<< SIMPLEAES_IRQ_COMPLETE_Pos
def SIMPLEAES_IRQ_ERR_Pos : Nat := 1
def SIMPLEAES_IRQ_ERR_Mask : Nat := 0x1 <<< SIMPLEAES_IRQ_ERR_Pos

/-- The registers of the block (`SIMPLEAES_*_OFFSET`). -/
inductive Reg where
  | CTRL | STAT | IRQ | KAR | IAR | OAR
  deriving DecidableEq, Repr

/-- The named fields of CTRL, STAT and IRQ. -/
inductive Field where
  | CTRL_OP | CTRL_IE | STAT_BUSY | STAT_IRQ | STAT_ERR | IRQ_COMPLETE | IRQ_ERR
  deriving DecidableEq, Repr

/-- Position of a field: `SIMPLEAES_MAKE_FIELD_POS`. -/
def Field.pos : Field → Nat
  | .CTRL_OP => SIMPLEAES_CTRL_OP_Pos
  | .CTRL_IE => SIMPLEAES_CTRL_IE_Pos
  | .STAT_BUSY => SIMPLEAES_STAT_BUSY_Pos
  | .STAT_IRQ => SIMPLEAES_STAT_IRQ_Pos
  | .STAT_ERR => SIMPLEAES_STAT_ERR_Pos
  | .IRQ_COMPLETE => SIMPLEAES_IRQ_COMPLETE_Pos
  | .IRQ_ERR => SIMPLEAES_IRQ_ERR_Pos

/-- Mask of a field: `SIMPLEAES_MAKE_FIELD_MASK`. -/
def Field.mask : Field → Nat
  | .CTRL_OP => SIMPLEAES_CTRL_OP_Mask
  | .CTRL_IE => SIMPLEAES_CTRL_IE_Mask
  | .STAT_BUSY => SIMPLEAES_STAT_BUSY_Mask
  | .STAT_IRQ => SIMPLEAES_STAT_IRQ_Mask
  | .STAT_ERR => SIMPLEAES_STAT_ERR_Mask
  | .IRQ_COMPLETE => SIMPLEAES_IRQ_COMPLETE_Mask
  | .IRQ_ERR => SIMPLEAES_IRQ_ERR_Mask

/-- Number of bits of a field (1 for every field but the 2-bit `STAT.ERR`). -/
def Field.width : Field → Nat
  | .STAT_ERR => 2
  | _ => 1

/-- The register a field lives in. -/
def Field.reg : Field → Reg
  | .CTRL_OP | .CTRL_IE => .CTRL
  | .STAT_BUSY | .STAT_IRQ | .STAT_ERR => .STAT
  | .IRQ_COMPLETE | .IRQ_ERR => .IRQ

/-- The register block behind `regfile.ptr`: one word per register. -/
structure Regfile where
  ctrl : Nat
  stat : Nat
  irq : Nat
  kar : Nat
  iar : Nat
  oar : Nat
  deriving DecidableEq, Repr

/-- Macro `SIMPLEAES_REG_READ(reg, base)`: `ioread32` of the register. -/
def SIMPLEAES_REG_READ (reg : Reg) (base : Regfile) : Nat :=
  match reg with
  | .CTRL => base.ctrl % U32_MOD
  | .STAT => base.stat % U32_MOD
  | .IRQ => base.irq % U32_MOD
  | .KAR => base.kar % U32_MOD
  | .IAR => base.iar % U32_MOD
  | .OAR => base.oar % U32_MOD

/-- Macro `SIMPLEAES_REG_WRITE(val, reg, base)`: `iowrite32` of `val`, cut to 32 bits. -/
def SIMPLEAES_REG_WRITE (val : Nat) (reg : Reg) (base : Regfile) : Regfile :=
  match reg with
  | .CTRL => { base with ctrl := val % U32_MOD }
  | .STAT => { base with stat := val % U32_MOD }
  | .IRQ => { base with irq := val % U32_MOD }
  | .KAR => { base with kar := val % U32_MOD }
  | .IAR => { base with iar := val % U32_MOD }
  | .OAR => { base with oar := val % U32_MOD }

/-- The word `SIMPLEAES_FIELD_WRITE(val, field, reg, base)` hands to `iowrite32`
when the register reads `w`: `(w & ~Mask) | (val << Pos)`, cut to 32 bits. The
value is not masked by the macro. -/
def FIELD_WRITE_word (val : Nat) (f : Field) (w : Nat) : Nat :=
  ((w &&& (ULONG_MAX ^^^ f.mask)) ||| (val <<< f.pos)) % U32_MOD

/-- Macro `SIMPLEAES_FIELD_WRITE(val, field, reg, base)`: read, modify, write back. -/
def SIMPLEAES_FIELD_WRITE (val : Nat) (f : Field) (base : Regfile) : Regfile :=
  SIMPLEAES_REG_WRITE (FIELD_WRITE_word val f (SIMPLEAES_REG_READ f.reg base)) f.reg base

/-- Macro `SIMPLEAES_FIELD_READ(field, reg, base)`: `(read & Mask) >> Pos`. -/
def SIMPLEAES_FIELD_READ (f : Field) (base : Regfile) : Nat :=
  (SIMPLEAES_REG_READ f.reg base &&& f.mask) >>> f.pos

/-! ## Header: types -/

/-- Enum `ORG_SIMPLE_Error`. -/
inductive ORG_SIMPLE_Error where
  | ERROR_OK | ERROR_KEY | ERROR_INPUT | ERROR_OUTPUT | ERROR_BUSY | ERROR_OTHER
  deriving DecidableEq, Repr

/-- Enum `ORG_SIMPLE_OpMode`. -/
inductive ORG_SIMPLE_OpMode where
  | ORG_SIMPLE_OPMODE_ENCRYPT | ORG_SIMPLE_OPMODE_DECRYPT
  deriving DecidableEq, Repr

/-- The cast `(u32)mode`: the enumerator values 0 and 1. -/
def ORG_SIMPLE_OpMode.toU32 : ORG_SIMPLE_OpMode → Nat
  | .ORG_SIMPLE_OPMODE_ENCRYPT => 0
  | .ORG_SIMPLE_OPMODE_DECRYPT => 1

/-- Enum `ResultVariant`. -/
inductive ResultVariant where
  | RESULT_OK | RESULT_ERR
  deriving DecidableEq, Repr

/-- Struct `Result_BoolError`: the tag and the union, as a sum of the two payloads. -/
inductive Result_BoolError where
  | okv (ok : Bool)
  | errv (err : ORG_SIMPLE_Error)
  deriving DecidableEq, Repr

/-- The `.variant` member. -/
def Result_BoolError.variant : Result_BoolError → ResultVariant
  | .okv _ => .RESULT_OK
  | .errv _ => .RESULT_ERR

/-- Macro `RESULT_BOOLERROR_OK(ok)`. -/
def RESULT_BOOLERROR_OK (ok : Bool) : Result_BoolError := .okv ok

/-- Macro `RESULT_BOOLERROR_ERR(e)`. -/
def RESULT_BOOLERROR_ERR (e : ORG_SIMPLE_Error) : Result_BoolError := .errv e

/-- Modelled from the spec: the macro `RESULT_BOOLERROR_ERROR`, which the C file
uses and the header does not define. The result type has "two variants, success
payload and error payload"; this is the error payload, as `RESULT_BOOLERROR_ERR`. -/
def RESULT_BOOLERROR_ERROR (e : ORG_SIMPLE_Error) : Result_BoolError := RESULT_BOOLERROR_ERR e

/-- Modelled from the spec: the macro `RESULT_BOOLERROR_BOOL`, which the C file
uses and the header does not define. It is the success payload of the
two-variant result, as `RESULT_BOOLERROR_OK`. -/
def RESULT_BOOLERROR_BOOL (b : Bool) : Result_BoolError := RESULT_BOOLERROR_OK b

/-- Struct `HwBuffer`: the address the CPU uses and the address the device uses. -/
structure HwBuffer where
  cpu_addr : Nat
  bus_addr : Nat
  deriving DecidableEq, Repr

/-- Struct `Notification_Error` without its wait queue: the slot and its pending flag. -/
structure Notification_Error where
  data : ORG_SIMPLE_Error
  flag : Bool
  deriving DecidableEq, Repr

/-- The part of the `SimpleAES` instance the device functions touch. -/
structure SimpleAES where
  notif : Notification_Error
  regfile : Regfile
  deriving DecidableEq, Repr

/-- Constant `ORG_SIMPLE_KD_SIZE`. -/
def ORG_SIMPLE_KD_SIZE : Nat := 128

/-- Constant `EAGAIN` of `linux/errno.h`. -/
def EAGAIN : Int := 11

/-- Constant `ERESTARTSYS` of `linux/errno.h`. -/
def ERESTARTSYS : Int := 512

/-! ## Observable events -/

/-- The three DMA buffers of one operation, in acquisition order. -/
inductive Buf where
  | key | input | output
  deriving DecidableEq, Repr

/-- What a function does that another party can observe, in program order. -/
inductive Event where
  -- spin_lock_irqsave on the register lock
  | lock
  -- spin_unlock_irqrestore on the register lock
  | unlock
  -- ioread32 of a register
  | read (r : Reg)
  -- iowrite32 of a 32-bit word to a register
  | write (r : Reg) (v : Nat)
  -- dma_alloc_coherent for a buffer, with what it returned (none: IS_ERR holds)
  | alloc (b : Buf) (res : Option HwBuffer)
  -- dma_free_coherent of a buffer
  | free (b : Buf) (h : HwBuffer)
  -- copy_from_user into a buffer, with the number of bytes not copied
  | copy_from_user (b : Buf) (ret_copy : Nat)
  -- copy_to_user from the output buffer, with the number of bytes not copied
  | copy_to_user (ret_copy : Nat)
  -- wait_event_interruptible on the wait queue of the channel is entered
  | wait
  -- Notification_Error_Send posts a result
  | send (e : ORG_SIMPLE_Error)
  deriving DecidableEq, Repr


/-! ## Completion channel: std.Notification<Error> -/

/-- Function `Notification_Error_Init`: the slot starts empty; returns 0. -/
def Notification_Error_Init (n : Notification_Error) : Int × Notification_Error :=
  (0, { n with flag := false })

/-- Function `Notification_Error_Send`: set the flag, store the data (the wake-up is the
return of `wait_event_interruptible` in the waiter). -/
def Notification_Error_Send (n : Notification_Error) (data : ORG_SIMPLE_Error) :
    Notification_Error :=
  { n with flag := true, data := data }

/-- Function `Notification_Error_Receive` from the return of its wait on: `n` is the
channel as the waiter finds it when `wait_event_interruptible` returns, `ret`
what the wait returned. The third component is what is stored through `DataPtr`
(`none`: nothing is stored). -/
def Notification_Error_Receive (n : Notification_Error) (ret : Int) :
    Int × Notification_Error × Option ORG_SIMPLE_Error :=
  if n.flag != true then
    (-EAGAIN, n, none)
  else
    (ret, { n with flag := false }, some n.data)

/-! ## Device functions -/

/-- Return values of an interrupt handler (`irqreturn_t`). -/
inductive irqreturn_t where
  | IRQ_NONE | IRQ_HANDLED
  deriving DecidableEq, Repr

/-- The source writes `irq_stat[k]` on the 32-bit word it read: bit `k` of it. -/
def bitAt (w k : Nat) : Nat := (w >>> k) % 2

/-- Function `SimpleAES_IrqHandler`. -/
def SimpleAES_IrqHandler (d : SimpleAES) : irqreturn_t × SimpleAES × List Event :=
  let irq_stat := SIMPLEAES_REG_READ .IRQ d.regfile
  let posted : Notification_Error × List Event :=
    if bitAt irq_stat 0 == 1 then
      (Notification_Error_Send d.notif .ERROR_OK, [.send .ERROR_OK])
    else if bitAt irq_stat 1 == 1 then
      let stat_err := SIMPLEAES_FIELD_READ .STAT_ERR d.regfile
      match stat_err with
      | 1 => (Notification_Error_Send d.notif .ERROR_KEY, [.read .STAT, .send .ERROR_KEY])
      | 2 => (Notification_Error_Send d.notif .ERROR_INPUT, [.read .STAT, .send .ERROR_INPUT])
      | 3 => (Notification_Error_Send d.notif .ERROR_OUTPUT, [.read .STAT, .send .ERROR_OUTPUT])
      | _ => (d.notif, [.read .STAT])
    else
      (d.notif, [])
  (.IRQ_HANDLED,
   { notif := posted.1, regfile := SIMPLEAES_REG_WRITE irq_stat .IRQ d.regfile },
   [.lock, .read .IRQ] ++ posted.2 ++ [.write .IRQ (irq_stat % U32_MOD), .unlock])

/-- Function `SimpleAES_Busy`. -/
def SimpleAES_Busy (d : SimpleAES) : Bool × List Event :=
  let stat_busy := SIMPLEAES_FIELD_READ .STAT_BUSY d.regfile
  (stat_busy == 1, [.lock, .read .STAT, .unlock])

/-- Function `SimpleAES_SetMode`. -/
def SimpleAES_SetMode (d : SimpleAES) (mode : ORG_SIMPLE_OpMode) :
    Result_BoolError × SimpleAES × List Event :=
  let busy := SimpleAES_Busy d
  if busy.1 then
    (RESULT_BOOLERROR_ERROR .ERROR_BUSY, d, busy.2)
  else
    let w0 := FIELD_WRITE_word mode.toU32 .CTRL_OP (SIMPLEAES_REG_READ .CTRL d.regfile)
    let r1 := SIMPLEAES_FIELD_WRITE mode.toU32 .CTRL_OP d.regfile
    let w1 := FIELD_WRITE_word 1 .CTRL_IE (SIMPLEAES_REG_READ .CTRL r1)
    let r2 := SIMPLEAES_FIELD_WRITE 1 .CTRL_IE r1
    (RESULT_BOOLERROR_BOOL true, { d with regfile := r2 },
     busy.2 ++ [.lock, .read .CTRL, .write .CTRL w0, .read .CTRL, .write .CTRL w1, .unlock])

/-- Function `SimpleAES_SetKeyAddr`. -/
def SimpleAES_SetKeyAddr (d : SimpleAES) (addr : Nat) :
    Result_BoolError × SimpleAES × List Event :=
  (RESULT_BOOLERROR_BOOL true, { d with regfile := SIMPLEAES_REG_WRITE addr .KAR d.regfile },
   [.lock, .write .KAR (addr % U32_MOD), .unlock])

/-- Function `SimpleAES_SetInputAddr`. -/
def SimpleAES_SetInputAddr (d : SimpleAES) (addr : Nat) :
    Result_BoolError × SimpleAES × List Event :=
  (RESULT_BOOLERROR_BOOL true, { d with regfile := SIMPLEAES_REG_WRITE addr .IAR d.regfile },
   [.lock, .write .IAR (addr % U32_MOD), .unlock])

/-- Function `SimpleAES_SetOutputAddr`. -/
def SimpleAES_SetOutputAddr (d : SimpleAES) (addr : Nat) :
    Result_BoolError × SimpleAES × List Event :=
  (RESULT_BOOLERROR_BOOL true, { d with regfile := SIMPLEAES_REG_WRITE addr .OAR d.regfile },
   [.lock, .write .OAR (addr % U32_MOD), .unlock])

/-! ## Environment of one operation -/

/-- One interrupt of the device: the words it has put in IRQ and STAT when its
line fires. -/
structure Irq where
  irq : Nat
  stat : Nat
  deriving DecidableEq, Repr

/-- The device raises an interrupt: IRQ and STAT take the words of the device. -/
def Irq.raise (q : Irq) (d : SimpleAES) : SimpleAES :=
  { d with regfile := { d.regfile with irq := q.irq, stat := q.stat } }

/-- Kernel `wait_event_interruptible(wq, flag == 1)`: returns 0 at once when the
flag is set; otherwise the caller sleeps while the listed interrupts run the
handler one after the other, and the wait returns 0 as soon as the flag is
set; when no interrupt is left and the flag is still clear, the sleep ends by a
signal and the wait returns `-ERESTARTSYS`. -/
def wait_event_interruptible (d : SimpleAES) : List Irq → Int × SimpleAES × List Event
  | [] => if d.notif.flag == true then (0, d, []) else (-ERESTARTSYS, d, [])
  | q :: qs =>
    if d.notif.flag == true then (0, d, [])
    else
      let h := SimpleAES_IrqHandler (q.raise d)
      let w := wait_event_interruptible h.2.1 qs
      (w.1, w.2.1, h.2.2 ++ w.2.2)

/-- Kernel `copy_from_user(to, from, n)` / `copy_to_user(to, from, n)` returning
`ret_copy` bytes not copied: the bytes that did arrive, a prefix of the source. -/
def copied_bytes (src : Nat → Nat) (n ret_copy : Nat) : List Nat :=
  (List.range (n - ret_copy)).map src

/-- What the kernel and the device contribute to one `SimpleAES_RunOp` call. -/
structure RunOpEnv where
  /-- result of the first `dma_alloc_coherent`; `none` when `IS_ERR` holds of it -/
  key_alloc : Option HwBuffer
  /-- result of the second `dma_alloc_coherent` -/
  input_alloc : Option HwBuffer
  /-- result of the third `dma_alloc_coherent` -/
  output_alloc : Option HwBuffer
  /-- return of `copy_from_user` for the key -/
  key_copy : Nat
  /-- return of `copy_from_user` for the input data -/
  input_copy : Nat
  /-- interrupts that fire while the caller sleeps in the wait -/
  irqs : List Irq
  /-- bytes of the output buffer when it is copied out -/
  output_mem : Nat → Nat
  /-- return of `copy_to_user` for the output data -/
  output_copy : Nat

/-- What one `SimpleAES_RunOp` call leaves behind. -/
structure RunOpOut where
  /-- the returned `ret_err_boolerror` -/
  ret : Result_BoolError
  /-- the device instance after the call -/
  dev : SimpleAES
  /-- the events of the call, in program order -/
  events : List Event
  /-- bytes copied into the key buffer, once `copy_from_user` ran -/
  key_mem : Option (List Nat)
  /-- bytes copied into the input buffer, once `copy_from_user` ran -/
  input_mem : Option (List Nat)
  /-- return of `Notification_Error_Receive`, once it ran -/
  recv_ret : Option Int
  /-- the local `notif_val`, once `Notification_Error_Receive` stored into it -/
  notif_val : Option ORG_SIMPLE_Error
  /-- bytes copied to `o_data` of the caller, once `copy_to_user` ran -/
  o_data : Option (List Nat)
  deriving DecidableEq, Repr

/-- Label `__simpleaes_runop_undo_res1`: free the key buffer, fall through to return. -/
def undo_res1 (key_buf : HwBuffer) : List Event :=
  [.free .key key_buf]

/-- Label `__simpleaes_runop_undo_res2`: free the input buffer, fall through. -/
def undo_res2 (key_buf input_buf : HwBuffer) : List Event :=
  .free .input input_buf :: undo_res1 key_buf

/-- Label `__simpleaes_runop_undo_res3`: free the output buffer, fall through. -/
def undo_res3 (key_buf input_buf output_buf : HwBuffer) : List Event :=
  .free .output output_buf :: undo_res2 key_buf input_buf

/-- Function `SimpleAES_RunOp`. `key` and `i_data` give the bytes of the caller by offset. Each
`goto` of the source is the list of frees of its label followed by the return. -/
def SimpleAES_RunOp (d : SimpleAES) (mode : ORG_SIMPLE_OpMode) (key i_data : Nat → Nat)
    (env : RunOpEnv) : RunOpOut :=
  let e1 : List Event := [.alloc .key env.key_alloc]
  match env.key_alloc with
  | none =>
    -- goto __simpleaes_runop_ret
    { ret := RESULT_BOOLERROR_ERROR .ERROR_KEY, dev := d, events := e1,
      key_mem := none, input_mem := none, recv_ret := none, notif_val := none, o_data := none }
  | some key_buf =>
  let e2 := e1 ++ [.alloc .input env.input_alloc]
  match env.input_alloc with
  | none =>
    { ret := RESULT_BOOLERROR_ERROR .ERROR_INPUT, dev := d, events := e2 ++ undo_res1 key_buf,
      key_mem := none, input_mem := none, recv_ret := none, notif_val := none, o_data := none }
  | some input_buf =>
  let e3 := e2 ++ [.alloc .output env.output_alloc]
  match env.output_alloc with
  | none =>
    { ret := RESULT_BOOLERROR_ERROR .ERROR_OUTPUT, dev := d,
      events := e3 ++ undo_res2 key_buf input_buf,
      key_mem := none, input_mem := none, recv_ret := none, notif_val := none, o_data := none }
  | some output_buf =>
  let m := SimpleAES_SetMode d mode
  let e4 := e3 ++ m.2.2
  if m.1.variant = .RESULT_ERR then
    { ret := m.1, dev := m.2.1, events := e4 ++ undo_res3 key_buf input_buf output_buf,
      key_mem := none, input_mem := none, recv_ret := none, notif_val := none, o_data := none }
  else
  let e5 := e4 ++ [.copy_from_user .key env.key_copy]
  let key_mem := copied_bytes key ORG_SIMPLE_KD_SIZE env.key_copy
  if env.key_copy ≠ 0 then
    { ret := RESULT_BOOLERROR_ERROR .ERROR_KEY, dev := m.2.1,
      events := e5 ++ undo_res3 key_buf input_buf output_buf,
      key_mem := some key_mem, input_mem := none, recv_ret := none, notif_val := none,
      o_data := none }
  else
  let e6 := e5 ++ [.copy_from_user .input env.input_copy]
  let input_mem := copied_bytes i_data ORG_SIMPLE_KD_SIZE env.input_copy
  if env.input_copy ≠ 0 then
    { ret := RESULT_BOOLERROR_ERROR .ERROR_INPUT, dev := m.2.1,
      events := e6 ++ undo_res3 key_buf input_buf output_buf,
      key_mem := some key_mem, input_mem := some input_mem, recv_ret := none,
      notif_val := none, o_data := none }
  else
  let ka := SimpleAES_SetKeyAddr m.2.1 (key_buf.bus_addr % U32_MOD)
  let e7 := e6 ++ ka.2.2
  if ka.1.variant = .RESULT_ERR then
    { ret := ka.1, dev := ka.2.1, events := e7 ++ undo_res3 key_buf input_buf output_buf,
      key_mem := some key_mem, input_mem := some input_mem, recv_ret := none,
      notif_val := none, o_data := none }
  else
  let ia := SimpleAES_SetInputAddr ka.2.1 (input_buf.bus_addr % U32_MOD)
  let e8 := e7 ++ ia.2.2
  if ia.1.variant = .RESULT_ERR then
    { ret := ia.1, dev := ia.2.1, events := e8 ++ undo_res3 key_buf input_buf output_buf,
      key_mem := some key_mem, input_mem := some input_mem, recv_ret := none,
      notif_val := none, o_data := none }
  else
  let oa := SimpleAES_SetOutputAddr ia.2.1 (output_buf.bus_addr % U32_MOD)
  let e9 := e8 ++ oa.2.2
  if oa.1.variant = .RESULT_ERR then
    { ret := oa.1, dev := oa.2.1, events := e9 ++ undo_res3 key_buf input_buf output_buf,
      key_mem := some key_mem, input_mem := some input_mem, recv_ret := none,
      notif_val := none, o_data := none }
  else
  let w := wait_event_interruptible oa.2.1 env.irqs
  let rc := Notification_Error_Receive w.2.1.notif w.1
  let dev := { w.2.1 with notif := rc.2.1 }
  let e10 := e9 ++ [.wait] ++ w.2.2
  if rc.1 ≠ 0 then
    { ret := RESULT_BOOLERROR_ERROR .ERROR_OTHER, dev := dev,
      events := e10 ++ undo_res3 key_buf input_buf output_buf,
      key_mem := some key_mem, input_mem := some input_mem, recv_ret := some rc.1,
      notif_val := rc.2.2, o_data := none }
  else
  let e11 := e10 ++ [.copy_to_user env.output_copy]
  let o_data := copied_bytes env.output_mem ORG_SIMPLE_KD_SIZE env.output_copy
  if env.output_copy ≠ 0 then
    { ret := RESULT_BOOLERROR_ERROR .ERROR_OUTPUT, dev := dev,
      events := e11 ++ undo_res3 key_buf input_buf output_buf,
      key_mem := some key_mem, input_mem := some input_mem, recv_ret := some rc.1,
      notif_val := rc.2.2, o_data := some o_data }
  else
    -- goto __simpleaes_runop_ret: the three labels above it are jumped over
    { ret := RESULT_BOOLERROR_OK true, dev := dev, events := e11,
      key_mem := some key_mem, input_mem := some input_mem, recv_ret := some rc.1,
      notif_val := rc.2.2, o_data := some o_data }

/-! ## Reading event lists -/

/-- The buffers freed, in order. -/
def frees : List Event → List Buf
  | [] => []
  | .free b _ :: es => b :: frees es
  | _ :: es => frees es

/-- The buffers freed together with the addresses handed to `dma_free_coherent`. -/
def freed : List Event → List (Buf × HwBuffer)
  | [] => []
  | .free b h :: es => (b, h) :: freed es
  | _ :: es => freed es

/-- The allocation requests, in order, with their results. -/
def allocs : List Event → List (Buf × Option HwBuffer)
  | [] => []
  | .alloc b r :: es => (b, r) :: allocs es
  | _ :: es => allocs es

/-- The registers read, in order. -/
def regReads : List Event → List Reg
  | [] => []
  | .read r :: es => r :: regReads es
  | _ :: es => regReads es

/-- The register writes, in order. -/
def regWrites : List Event → List (Reg × Nat)
  | [] => []
  | .write r v :: es => (r, v) :: regWrites es
  | _ :: es => regWrites es

/-- The results posted to the channel, in order. -/
def sends : List Event → List ORG_SIMPLE_Error
  | [] => []
  | .send e :: es => e :: sends es
  | _ :: es => sends es

/-- Whether the output buffer was copied to the caller. -/
def copiesOut : List Event → Bool
  | [] => false
  | .copy_to_user _ :: _ => true
  | _ :: es => copiesOut es

/-- The events that follow the first entry into the wait. -/
def eventsAfterWait : List Event → List Event
  | [] => []
  | .wait :: es => es
  | _ :: es => eventsAfterWait es

/-- The events up to the first entry into the wait. -/
def eventsBeforeWait : List Event → List Event
  | [] => []
  | .wait :: _ => []
  | e :: es => e :: eventsBeforeWait es

/-! ## The statements of the specification, in its own words -/

/-- The result the interrupt handler is said to post for an IRQ word and a STAT
word: success when IRQ bit 0 is set; otherwise, when IRQ bit 1 is set, the
error named by STAT bits 2-3 (1 key, 2 input, 3 output, 0 nothing); otherwise
nothing. -/
def posted_per_spec (irq stat : Nat) : Option ORG_SIMPLE_Error :=
  if irq.testBit 0 then some .ERROR_OK
  else if irq.testBit 1 then
    if stat / 4 % 4 = 1 then some .ERROR_KEY
    else if stat / 4 % 4 = 2 then some .ERROR_INPUT
    else if stat / 4 % 4 = 3 then some .ERROR_OUTPUT
    else none
  else none

/-- The branch of the source taken for buffer `b`: `IS_ERR` holds of the result of
the allocation of `b` and of none before it. The kernel allocator does not
report failure this way (see `returnsNULL`). -/
def allocFailsAt (env : RunOpEnv) : Buf → Prop
  | .key => env.key_alloc = none
  | .input => env.key_alloc.isSome = true ∧ env.input_alloc = none
  | .output =>
    env.key_alloc.isSome = true ∧ env.input_alloc.isSome = true ∧ env.output_alloc = none

/-- The error the specification attaches to each buffer. -/
def errorOfBuf : Buf → ORG_SIMPLE_Error
  | .key => .ERROR_KEY
  | .input => .ERROR_INPUT
  | .output => .ERROR_OUTPUT

/-- Buffers acquired before `b`, in reverse acquisition order. -/
def acquiredBefore : Buf → List Buf
  | .key => []
  | .input => [.key]
  | .output => [.input, .key]

/-- The allocation requests up to and including the one for `b`. -/
def requestedUpTo : Buf → List Buf
  | .key => [.key]
  | .input => [.key, .input]
  | .output => [.key, .input, .output]

/-- What the environment returns for the allocation of buffer `b`. -/
def RunOpEnv.allocOf (env : RunOpEnv) : Buf → Option HwBuffer
  | .key => env.key_alloc
  | .input => env.input_alloc
  | .output => env.output_alloc

/-- Number of times buffer `b` with addresses `h` is handed to `dma_free_coherent`. -/
def freeCount (b : Buf) (h : HwBuffer) (es : List Event) : Nat :=
  (freed es).count (b, h)

/-! ## Concrete inputs -/

/-- An idle device after `Notification_Error_Init`: all registers zero, slot empty. -/
def dev_idle : SimpleAES :=
  { notif := { data := .ERROR_OK, flag := false },
    regfile := { ctrl := 0, stat := 0, irq := 0, kar := 0, iar := 0, oar := 0 } }

/-- A device whose STAT word has BUSY set. -/
def dev_busy : SimpleAES :=
  { notif := { data := .ERROR_OK, flag := false },
    regfile := { ctrl := 0, stat := 1, irq := 0, kar := 0, iar := 0, oar := 0 } }

/-- Caller bytes: offset `i` holds `i`. -/
def bytes_id : Nat → Nat := fun i => i % 256

/-- An interrupt reporting completion: IRQ.COMPLETE set. -/
def irq_complete : Irq := { irq := 1, stat := 0 }

/-- An interrupt reporting a key error: IRQ.ERR set, STAT.ERR = 1. -/
def irq_key_error : Irq := { irq := 2, stat := 4 }

/-- Everything succeeds and the device completes by interrupt. -/
def env_ok : RunOpEnv :=
  { key_alloc := some { cpu_addr := 4096, bus_addr := 4096 }
    input_alloc := some { cpu_addr := 8192, bus_addr := 8192 }
    output_alloc := some { cpu_addr := 12288, bus_addr := 12288 }
    key_copy := 0
    input_copy := 0
    irqs := [irq_complete]
    output_mem := bytes_id
    output_copy := 0 }

/-- The channel after the handler posted `r`, or left alone when `r` is `none`. -/
def post_option (n : Notification_Error) : Option ORG_SIMPLE_Error → Notification_Error
  | some e => Notification_Error_Send n e
  | none => n

/-! ## Definitions used by the statements -/

/-- The events an interrupt-handler run can produce: lock, unlock, register
reads, a write to IRQ, a send. -/
def handlerEvent : Event → Bool
  | .lock | .unlock | .read _ | .write .IRQ _ | .send _ => true
  | _ => false

/-- What `Notification_Error_Receive` gives a caller who enters the wait on
device `d` while the interrupts `irqs` fire: return code, channel, stored data. -/
def receive_outcome (d : SimpleAES) (irqs : List Irq) :
    Int × Notification_Error × Option ORG_SIMPLE_Error :=
  Notification_Error_Receive (wait_event_interruptible d irqs).2.1.notif
    (wait_event_interruptible d irqs).1

/-- The faults of an operation whose three allocations succeeded on an idle device. -/
inductive Fault where
  | keyCopy | inputCopy | noResult | outputCopy
  deriving DecidableEq, Repr

/-- The fault is the first thing that goes wrong in the call: a copy fault is a
non-zero return of the copy; no result is a non-zero return of the receive (the
code `-EAGAIN`); an output copy fault comes after a receive that returned 0. -/
def faultAt (d : SimpleAES) (env : RunOpEnv) : Fault → Prop
  | .keyCopy => env.key_copy ≠ 0
  | .inputCopy => env.key_copy = 0 ∧ env.input_copy ≠ 0
  | .noResult => env.key_copy = 0 ∧ env.input_copy = 0 ∧ (receive_outcome d env.irqs).1 = -EAGAIN
  | .outputCopy =>
    env.key_copy = 0 ∧ env.input_copy = 0 ∧ (receive_outcome d env.irqs).1 = 0
      ∧ env.output_copy ≠ 0

/-- The error the specification attaches to each fault. -/
def errorOfFault : Fault → ORG_SIMPLE_Error
  | .keyCopy => .ERROR_KEY
  | .inputCopy => .ERROR_INPUT
  | .noResult => .ERROR_OTHER
  | .outputCopy => .ERROR_OUTPUT

/-- The three allocations succeed with the given buffers. -/
def allocsSucceed (env : RunOpEnv) (key_buf input_buf output_buf : HwBuffer) : Prop :=
  env.key_alloc = some key_buf ∧ env.input_alloc = some input_buf
    ∧ env.output_alloc = some output_buf

/-- Nothing fails in the call: idle device, three buffers, both copies in, a
receive that returns 0, the copy out. -/
def nothingFails (d : SimpleAES) (env : RunOpEnv) (key_buf input_buf output_buf : HwBuffer) :
    Prop :=
  allocsSucceed env key_buf input_buf output_buf
    ∧ SIMPLEAES_FIELD_READ .STAT_BUSY d.regfile ≠ 1
    ∧ env.key_copy = 0 ∧ env.input_copy = 0
    ∧ (receive_outcome d env.irqs).1 = 0
    ∧ env.output_copy = 0

/-- The `ORG_SIMPLE_KD_SIZE` bytes of the caller, offset by offset. -/
def block_of (src : Nat → Nat) : List Nat :=
  (List.range ORG_SIMPLE_KD_SIZE).map src

instance (env : RunOpEnv) (b : Buf) : Decidable (allocFailsAt env b) := by
  cases b <;> unfold allocFailsAt <;> infer_instance

instance (d : SimpleAES) (env : RunOpEnv) (f : Fault) : Decidable (faultAt d env f) := by
  cases f <;> unfold faultAt <;> infer_instance

instance (env : RunOpEnv) (k i o : HwBuffer) : Decidable (allocsSucceed env k i o) := by
  unfold allocsSucceed; infer_instance

instance (d : SimpleAES) (env : RunOpEnv) (k i o : HwBuffer) :
    Decidable (nothingFails d env k i o) := by
  unfold nothingFails; infer_instance

/-- The device once the mode and the three addresses are programmed. -/
def programmed (d : SimpleAES) (mode : ORG_SIMPLE_OpMode) (key_buf input_buf output_buf : HwBuffer) :
    SimpleAES :=
  (SimpleAES_SetOutputAddr
    (SimpleAES_SetInputAddr
      (SimpleAES_SetKeyAddr (SimpleAES_SetMode d mode).2.1 (key_buf.bus_addr % U32_MOD)).2.1
      (input_buf.bus_addr % U32_MOD)).2.1
    (output_buf.bus_addr % U32_MOD)).2.1

/-- The events of a call up to its wait, when nothing failed on the way: three
allocations, the mode, the two copies in, the three addresses. -/
def programEvents (d : SimpleAES) (mode : ORG_SIMPLE_OpMode)
    (key_buf input_buf output_buf : HwBuffer) : List Event :=
  [.alloc .key (some key_buf), .alloc .input (some input_buf), .alloc .output (some output_buf)]
    ++ (SimpleAES_SetMode d mode).2.2
    ++ [.copy_from_user .key 0, .copy_from_user .input 0]
    ++ [.lock, .write .KAR (key_buf.bus_addr % U32_MOD % U32_MOD), .unlock,
        .lock, .write .IAR (input_buf.bus_addr % U32_MOD % U32_MOD), .unlock,
        .lock, .write .OAR (output_buf.bus_addr % U32_MOD % U32_MOD), .unlock]

/-- As `env_ok`, but the copy of the output to the caller faults. -/
def env_output_fault : RunOpEnv := { env_ok with output_copy := 7 }

/-- As `env_ok`, but the device reports a key error instead of completion. -/
def env_key_error : RunOpEnv := { env_ok with irqs := [irq_key_error] }

/-- As `env_ok`, but no interrupt fires during the call. -/
def env_no_irq : RunOpEnv := { env_ok with irqs := [] }

/-- As `env_ok`, but the output buffer lies at bus address `2 ^ 32`. -/
def env_high_addr : RunOpEnv :=
  { env_ok with output_alloc := some { cpu_addr := 12288, bus_addr := 4294967296 } }

/-- As `env_ok`, but the third allocation fails. -/
def env_output_alloc_fails : RunOpEnv := { env_ok with output_alloc := none }

/-- The key buffer of `env_ok`. -/
def buf_k : HwBuffer := { cpu_addr := 4096, bus_addr := 4096 }

/-- The input buffer of `env_ok`. -/
def buf_i : HwBuffer := { cpu_addr := 8192, bus_addr := 8192 }

/-- The output buffer of `env_ok`. -/
def buf_o : HwBuffer := { cpu_addr := 12288, bus_addr := 12288 }

/-- The idle device after an interrupt posted a key error while no caller waited. -/
def dev_stale : SimpleAES := (SimpleAES_IrqHandler (irq_key_error.raise dev_idle)).2.1

/-- As `env_ok`, but the copy of the key faults and no interrupt fires. -/
def env_key_copy_fault : RunOpEnv := { env_ok with key_copy := 3, irqs := [] }

/-- The device after a call that failed at the key copy, before its receive,
and a completion interrupt that fired after that call returned. -/
def dev_after_failed_call : SimpleAES :=
  (SimpleAES_IrqHandler (irq_complete.raise
    (SimpleAES_RunOp dev_idle .ORG_SIMPLE_OPMODE_ENCRYPT bytes_id bytes_id
      env_key_copy_fault).dev)).2.1

/-! ## Register lock -/

/-- The register accesses of an event list, in order. -/
def regAccesses : List Event → List Event
  | [] => []
  | .read r :: es => .read r :: regAccesses es
  | .write r v :: es => .write r v :: regAccesses es
  | _ :: es => regAccesses es

/-- One event against the register lock, `held` telling whether the lock is
held before it; `none` when the event breaks the discipline: an acquisition
while held, a release while free, a register access while free, an entry into
the blocking wait while held. -/
def lockStep (held : Bool) : Event → Option Bool
  | .lock => if held then none else some true
  | .unlock => if held then some false else none
  | .read _ => if held then some true else none
  | .write _ _ => if held then some true else none
  | .wait => if held then none else some false
  | _ => some held

/-- Run an event list against the register lock from the state `held`: the
state of the lock at the end, or `none` when some event broke the discipline. -/
def lockRun (held : Bool) : List Event → Option Bool
  | [] => some held
  | e :: es =>
    match lockStep held e with
    | none => none
    | some h => lockRun h es

/-! ## Request surface: the character device -/

/-- Constant `EFAULT` of `linux/errno.h`. -/
def EFAULT : Int := 14

/-- Constant `EIO` of `linux/errno.h`. -/
def EIO : Int := 5

/-- Constant `EINVAL` of `linux/errno.h`. -/
def EINVAL : Int := 22

/-- Constant `ENODATA` of `linux/errno.h`. -/
def ENODATA : Int := 61

/-- Constant `IOCTL_MAGIC`, the character z. -/
def IOCTL_MAGIC : Nat := 122

/-- Kernel `_IOWR(type, nr, size)`: direction read and write in bits 30-31, the
size of the argument type in bits 16-29, the type in bits 8-15, the number in
bits 0-7. -/
def IOWR (type nr size : Nat) : Nat :=
  (3 <<< 30) ||| (size <<< 16) ||| (type <<< 8) ||| nr

/-- Constant `IOCTL_ENCRYPT`; the argument type is a pointer, of 8 bytes. -/
def IOCTL_ENCRYPT : Nat := IOWR IOCTL_MAGIC 1 8

/-- Constant `IOCTL_DECRYPT`; the argument type is a pointer, of 8 bytes. -/
def IOCTL_DECRYPT : Nat := IOWR IOCTL_MAGIC 2 8

/-- Function `SimpleAES_Encrypt`. -/
def SimpleAES_Encrypt (d : SimpleAES) (key i_data : Nat → Nat) (env : RunOpEnv) : RunOpOut :=
  SimpleAES_RunOp d .ORG_SIMPLE_OPMODE_ENCRYPT key i_data env

/-- Function `SimpleAES_Decrypt`. -/
def SimpleAES_Decrypt (d : SimpleAES) (key i_data : Nat → Nat) (env : RunOpEnv) : RunOpOut :=
  SimpleAES_RunOp d .ORG_SIMPLE_OPMODE_DECRYPT key i_data env

/-- What the kernel and the device contribute to one `simpleaes_cdev_ioctl` call:
for each of the two `case` blocks, the return of its `copy_from_user` of the
argument and the environment of the operation it runs. -/
structure IoctlEnv where
  /-- return of `copy_from_user` in `case IOCTL_ENCRYPT` -/
  encrypt_arg_copy : Nat
  /-- environment of the `SimpleAES_Encrypt` call -/
  encrypt : RunOpEnv
  /-- return of `copy_from_user` in `case IOCTL_DECRYPT` -/
  decrypt_arg_copy : Nat
  /-- environment of the `SimpleAES_Decrypt` call -/
  decrypt : RunOpEnv

/-- What one `simpleaes_cdev_ioctl` call leaves behind. -/
structure IoctlOut where
  /-- the returned `long` -/
  ret : Int
  /-- the device instance after the call -/
  dev : SimpleAES
  /-- the operations run, in order: the mode and what `SimpleAES_RunOp` returned -/
  ops : List (ORG_SIMPLE_OpMode × Result_BoolError)
  deriving DecidableEq, Repr

/-- The `default` label of the switch in `simpleaes_cdev_ioctl`. -/
def ioctl_default (d : SimpleAES) (ops : List (ORG_SIMPLE_OpMode × Result_BoolError)) :
    IoctlOut :=
  { ret := -EINVAL, dev := d, ops := ops }

/-- The `case IOCTL_DECRYPT` label of the switch: without a `break` at its end,
control runs on into `default`. -/
def ioctl_case_DECRYPT (d : SimpleAES) (key i_data : Nat → Nat) (env : IoctlEnv)
    (ops : List (ORG_SIMPLE_OpMode × Result_BoolError)) : IoctlOut :=
  if env.decrypt_arg_copy ≠ 0 then
    { ret := -EFAULT, dev := d, ops := ops }
  else
    let r := SimpleAES_Decrypt d key i_data env.decrypt
    let ops1 := ops ++ [(ORG_SIMPLE_OpMode.ORG_SIMPLE_OPMODE_DECRYPT, r.ret)]
    if r.ret.variant = .RESULT_ERR then
      { ret := - EIO, dev := r.dev, ops := ops1 }
    else
      ioctl_default r.dev ops1

/-- The `case IOCTL_ENCRYPT` label of the switch: without a `break` at its end,
control runs on into `case IOCTL_DECRYPT`. -/
def ioctl_case_ENCRYPT (d : SimpleAES) (key i_data : Nat → Nat) (env : IoctlEnv)
    (ops : List (ORG_SIMPLE_OpMode × Result_BoolError)) : IoctlOut :=
  if env.encrypt_arg_copy ≠ 0 then
    { ret := -EFAULT, dev := d, ops := ops }
  else
    let r := SimpleAES_Encrypt d key i_data env.encrypt
    let ops1 := ops ++ [(ORG_SIMPLE_OpMode.ORG_SIMPLE_OPMODE_ENCRYPT, r.ret)]
    if r.ret.variant = .RESULT_ERR then
      { ret := - EIO, dev := r.dev, ops := ops1 }
    else
      ioctl_case_DECRYPT r.dev key i_data env ops1

/-- Function `simpleaes_cdev_ioctl`. `key` and `i_data` are the bytes behind the
pointers of the `IOCTL_Data` the argument points to. The statement `return 0`
after the switch is never reached: every way through the switch returns. -/
def simpleaes_cdev_ioctl (d : SimpleAES) (cmd : Nat) (key i_data : Nat → Nat)
    (env : IoctlEnv) : IoctlOut :=
  if cmd = IOCTL_ENCRYPT then ioctl_case_ENCRYPT d key i_data env []
  else if cmd = IOCTL_DECRYPT then ioctl_case_DECRYPT d key i_data env []
  else ioctl_default d []

/-! ## Device management: probe and remove -/

/-- The resources `SimpleAES_probe` acquires by hand, in the order of their
acquisition: the interrupt (`request_irq` / `free_irq`), the clock
(`clk_prepare_enable` / `clk_disable_unprepare`), the device number
(`alloc_chrdev_region` / `unregister_chrdev_region`), the character device
(`cdev_add` / `cdev_del`), the class (`class_create` / `class_destroy`), the
device node (`device_create` / `device_destroy`). What `devm_` calls obtain is
released by the kernel and is not listed. -/
inductive Res where
  | irq | clk | chrdev_region | cdev | cls | device
  deriving DecidableEq, Repr

/-- A resource is acquired (the call succeeded) or released. -/
inductive ResEvent where
  | acquire (r : Res)
  | release (r : Res)
  deriving DecidableEq, Repr

/-- What the kernel returns to one `SimpleAES_probe` call. A pointer result is
`none` when it is valid and `some e` when `IS_ERR` holds and `PTR_ERR` is `e`. -/
structure ProbeEnv where
  /-- result of `devm_kzalloc` -/
  devm_kzalloc : Option Int
  /-- result of `platform_get_irq_byname`: the interrupt line -/
  platform_get_irq_byname : Int
  /-- result of `devm_platform_ioremap_resource_byname` -/
  devm_platform_ioremap_resource_byname : Option Int
  /-- result of `devm_clk_get_byname` -/
  devm_clk_get_byname : Option Int
  /-- return of `request_irq` -/
  request_irq : Int
  /-- return of `clk_prepare_enable` -/
  clk_prepare_enable : Int
  /-- return of `alloc_chrdev_region` -/
  alloc_chrdev_region : Int
  /-- return of `cdev_add` -/
  cdev_add : Int
  /-- result of `class_create` -/
  class_create : Option Int
  /-- result of `device_create` -/
  device_create : Option Int
  deriving DecidableEq, Repr

/-- Label `SimpleAES_probe_error_clk_deinit`: disable the clock, fall through to return. -/
def probe_error_clk_deinit : List ResEvent :=
  [.release .clk]

/-- Label `SimpleAES_probe_error_free_irq`: free the interrupt, fall through. -/
def probe_error_free_irq : List ResEvent :=
  .release .irq :: probe_error_clk_deinit

/-- Label `SimpleAES_probe_error_unregister_chrdev_region`: fall through. -/
def probe_error_unregister_chrdev_region : List ResEvent :=
  .release .chrdev_region :: probe_error_free_irq

/-- Label `SimpleAES_probe_error_cdev_del`: fall through. -/
def probe_error_cdev_del : List ResEvent :=
  .release .cdev :: probe_error_unregister_chrdev_region

/-- Label `SimpleAES_probe_error_class_destroy`: fall through. -/
def probe_error_class_destroy : List ResEvent :=
  .release .cls :: probe_error_cdev_del

/-- Function `SimpleAES_probe`: the returned `ret` and the acquisitions and
releases, in program order. Each `goto` of the source is the list of releases
of its label followed by the return. -/
def SimpleAES_probe (env : ProbeEnv) : Int × List ResEvent :=
  match env.devm_kzalloc with
  | some e => (e, [])
  | none =>
  if env.platform_get_irq_byname ≤ 0 then (-ENODATA, [])
  else
  match env.devm_platform_ioremap_resource_byname with
  | some e => (e, [])
  | none =>
  match env.devm_clk_get_byname with
  | some e => (e, [])
  | none =>
  -- Notification_Error_Init, then request_irq
  if env.request_irq ≠ 0 then (env.request_irq, [])
  else
  let a1 : List ResEvent := [.acquire .irq]
  -- goto SimpleAES_probe_ret
  if env.clk_prepare_enable ≠ 0 then (env.clk_prepare_enable, a1)
  else
  let a2 := a1 ++ [.acquire .clk]
  if env.alloc_chrdev_region < 0 then (env.alloc_chrdev_region, a2 ++ probe_error_free_irq)
  else
  let a3 := a2 ++ [.acquire .chrdev_region]
  if env.cdev_add < 0 then (env.cdev_add, a3 ++ probe_error_unregister_chrdev_region)
  else
  let a4 := a3 ++ [.acquire .cdev]
  match env.class_create with
  | some e => (e, a4 ++ probe_error_cdev_del)
  | none =>
  let a5 := a4 ++ [.acquire .cls]
  match env.device_create with
  | some e => (e, a5 ++ probe_error_class_destroy)
  | none => (0, a5 ++ [.acquire .device])

/-- Function `SimpleAES_remove`: the releases, in program order. -/
def SimpleAES_remove : List ResEvent :=
  [.release .device, .release .cls, .release .cdev, .release .chrdev_region,
   .release .clk, .release .irq]

/-- The resources acquired, in order. -/
def acquired : List ResEvent → List Res
  | [] => []
  | .acquire r :: es => r :: acquired es
  | _ :: es => acquired es

/-- The resources released, in order. -/
def released : List ResEvent → List Res
  | [] => []
  | .release r :: es => r :: released es
  | _ :: es => released es

/-- Every step of `SimpleAES_probe` succeeds. -/
def probe_ok : ProbeEnv :=
  { devm_kzalloc := none
    platform_get_irq_byname := 42
    devm_platform_ioremap_resource_byname := none
    devm_clk_get_byname := none
    request_irq := 0
    clk_prepare_enable := 0
    alloc_chrdev_region := 0
    cdev_add := 0
    class_create := none
    device_create := none }

/-- As `probe_ok`, but `clk_prepare_enable` fails with `-EIO`. -/
def probe_clk_fails : ProbeEnv := { probe_ok with clk_prepare_enable := -5 }

/-- As `probe_ok`, but `alloc_chrdev_region` fails with `-EINVAL`. -/
def probe_chrdev_fails : ProbeEnv := { probe_ok with alloc_chrdev_region := -22 }

/-- As `probe_ok`, but `device_create` fails with `-EINVAL`. -/
def probe_device_fails : ProbeEnv := { probe_ok with device_create := some (-22) }

/-- As `probe_ok`, but `request_irq` fails with `-EINVAL`. -/
def probe_irq_fails : ProbeEnv := { probe_ok with request_irq := -22 }

/-- Everything succeeds in both blocks of the ioctl switch. -/
def ioctl_ok : IoctlEnv :=
  { encrypt_arg_copy := 0, encrypt := env_ok, decrypt_arg_copy := 0, decrypt := env_ok }

/-! ## Allocation failure as the kernel reports it -/

/-- The null pointer. -/
def NULL : Nat := 0

/-- Kernel `dma_alloc_coherent` reports a failed allocation by returning `NULL`.
`IS_ERR(NULL)` is false, so in the environment of a call a failed allocation is
a result of which `IS_ERR` does not hold (it is not `none`) and whose `cpu_addr`
is `NULL`; no memory stands behind it. -/
def returnsNULL : Option HwBuffer → Bool
  | some h => h.cpu_addr == NULL
  | none => false

/-- As `env_ok`, but the first allocation fails: `dma_alloc_coherent` returns `NULL`. -/
def env_null_key : RunOpEnv :=
  { env_ok with key_alloc := some { cpu_addr := NULL, bus_addr := 0 } }

/-- As `env_ok`, but the second allocation fails: `dma_alloc_coherent` returns `NULL`. -/
def env_null_input : RunOpEnv :=
  { env_ok with input_alloc := some { cpu_addr := NULL, bus_addr := 0 } }

/-- As `env_ok`, but the third allocation fails: `dma_alloc_coherent` returns `NULL`. -/
def env_null_output : RunOpEnv :=
  { env_ok with output_alloc := some { cpu_addr := NULL, bus_addr := 0 } }

/-! ## Lemmas: bits of register words -/

theorem fieldMask_eq (f : Field) : f.mask = (2 ^ f.width - 1) <<< f.pos := by
  cases f <;> rfl

theorem field_fits (f : Field) : f.pos + f.width ≤ 32 := by
  cases f <;> decide

theorem fieldMask_testBit (f : Field) (i : Nat) :
    f.mask.testBit i = (decide (f.pos ≤ i) && decide (i - f.pos < f.width)) := by
  rw [fieldMask_eq, Nat.testBit_shiftLeft, Nat.testBit_two_pow_sub_one]

theorem testBit_of_lt {x k i : Nat} (hx : x < 2 ^ k) (hi : k ≤ i) : x.testBit i = false :=
  Nat.testBit_lt_two_pow (Nat.lt_of_lt_of_le hx (Nat.pow_le_pow_right (by decide) hi))

theorem FIELD_WRITE_word_lt (v : Nat) (f : Field) (w : Nat) : FIELD_WRITE_word v f w < 2 ^ 32 :=
  Nat.mod_lt _ (by decide)

/-- Bit `i` of the word a field write puts back: the bit of the value inside the
mask, the old bit outside, provided the value fits the field. -/
theorem FIELD_WRITE_word_testBit (v : Nat) (f : Field) (w i : Nat)
    (hw : w < 2 ^ 32) (hv : v < 2 ^ f.width) :
    (FIELD_WRITE_word v f w).testBit i
      = if f.mask.testBit i then v.testBit (i - f.pos) else w.testBit i := by
  have hfit := field_fits f
  unfold FIELD_WRITE_word U32_MOD ULONG_MAX
  simp only [Nat.testBit_mod_two_pow, Nat.testBit_or, Nat.testBit_and, Nat.testBit_xor,
    Nat.testBit_shiftLeft, Nat.testBit_two_pow_sub_one, fieldMask_testBit]
  by_cases h32 : i < 32
  · have h64 : i < 64 := by omega
    by_cases hp : f.pos ≤ i
    · by_cases hk : i - f.pos < f.width
      · simp [h32, h64, hp, hk]
      · have hvb : v.testBit (i - f.pos) = false := testBit_of_lt hv (Nat.le_of_not_lt hk)
        simp [h32, h64, hp, hk, hvb]
    · simp [h32, h64, hp]
  · have hwb : w.testBit i = false := testBit_of_lt hw (Nat.le_of_not_lt h32)
    have hk : ¬ (f.pos ≤ i ∧ i - f.pos < f.width) := by omega
    by_cases hp : f.pos ≤ i
    · have hk2 : ¬ (i - f.pos < f.width) := fun h => hk ⟨hp, h⟩
      simp [h32, hwb, hp, hk2]
    · simp [h32, hwb, hp]

theorem field_extract_testBit (f : Field) (x j : Nat) :
    ((x &&& f.mask) >>> f.pos).testBit j = (decide (j < f.width) && x.testBit (f.pos + j)) := by
  rw [Nat.testBit_shiftRight, Nat.testBit_and, fieldMask_testBit]
  have : f.pos + j - f.pos = j := by omega
  rw [this]
  by_cases hj : j < f.width <;> simp [hj, Bool.and_comm]

/-- A value that fits the field is read back from the word the field write made. -/
theorem field_readback (v : Nat) (f : Field) (w : Nat) (hw : w < 2 ^ 32)
    (hv : v < 2 ^ f.width) :
    (FIELD_WRITE_word v f w &&& f.mask) >>> f.pos = v := by
  apply Nat.eq_of_testBit_eq
  intro j
  rw [field_extract_testBit, FIELD_WRITE_word_testBit v f w _ hw hv, fieldMask_testBit]
  have : f.pos + j - f.pos = j := by omega
  rw [this]
  by_cases hj : j < f.width
  · simp [hj]
  · have hvb : v.testBit j = false := testBit_of_lt hv (Nat.le_of_not_lt hj)
    simp [hj, hvb]

theorem REG_READ_lt (reg : Reg) (base : Regfile) : SIMPLEAES_REG_READ reg base < 2 ^ 32 := by
  cases reg <;> exact Nat.mod_lt _ (by decide)

/-! ## Lemmas: event lists -/

theorem frees_append (a b : List Event) : frees (a ++ b) = frees a ++ frees b := by
  induction a with
  | nil => rfl
  | cons e es ih => cases e <;> simp [frees, ih]

theorem freed_append (a b : List Event) : freed (a ++ b) = freed a ++ freed b := by
  induction a with
  | nil => rfl
  | cons e es ih => cases e <;> simp [freed, ih]

theorem allocs_append (a b : List Event) : allocs (a ++ b) = allocs a ++ allocs b := by
  induction a with
  | nil => rfl
  | cons e es ih => cases e <;> simp [allocs, ih]

theorem regReads_append (a b : List Event) : regReads (a ++ b) = regReads a ++ regReads b := by
  induction a with
  | nil => rfl
  | cons e es ih => cases e <;> simp [regReads, ih]

theorem regWrites_append (a b : List Event) :
    regWrites (a ++ b) = regWrites a ++ regWrites b := by
  induction a with
  | nil => rfl
  | cons e es ih => cases e <;> simp [regWrites, ih]

theorem sends_append (a b : List Event) : sends (a ++ b) = sends a ++ sends b := by
  induction a with
  | nil => rfl
  | cons e es ih => cases e <;> simp [sends, ih]

theorem copiesOut_append (a b : List Event) :
    copiesOut (a ++ b) = (copiesOut a || copiesOut b) := by
  induction a with
  | nil => rfl
  | cons e es ih => cases e <;> simp [copiesOut, ih]

/-! ## Lemmas: interrupt handler -/

theorem bitAt_eq_one (w k : Nat) (hk : k < 32) : (bitAt (w % U32_MOD) k == 1) = w.testBit k := by
  unfold bitAt U32_MOD
  rw [Nat.testBit_to_div_mod, Nat.shiftRight_eq_div_pow]
  have h : w % 2 ^ 32 / 2 ^ k % 2 = w / 2 ^ k % 2 := by
    have := Nat.testBit_mod_two_pow w 32 k
    rw [Nat.testBit_to_div_mod, Nat.testBit_to_div_mod] at this
    simp only [hk, decide_True, Bool.true_and, decide_eq_decide] at this
    rcases Nat.mod_two_eq_zero_or_one (w % 2 ^ 32 / 2 ^ k) with h1 | h1 <;>
      rcases Nat.mod_two_eq_zero_or_one (w / 2 ^ k) with h2 | h2 <;> simp_all
  rw [h]
  by_cases h1 : w / 2 ^ k % 2 = 1 <;> simp [h1]

theorem stat_err_eq (base : Regfile) :
    SIMPLEAES_FIELD_READ .STAT_ERR base = base.stat / 4 % 4 := by
  apply Nat.eq_of_testBit_eq
  intro j
  have e : base.stat / 4 % 4 = (base.stat >>> 2) % 2 ^ 2 := by
    rw [Nat.shiftRight_eq_div_pow]; rfl
  rw [e, Nat.testBit_mod_two_pow, Nat.testBit_shiftRight]
  unfold SIMPLEAES_FIELD_READ
  rw [field_extract_testBit]
  have hr : SIMPLEAES_REG_READ Field.STAT_ERR.reg base = base.stat % 2 ^ 32 := rfl
  have hw : Field.STAT_ERR.width = 2 := rfl
  have hp : Field.STAT_ERR.pos = 2 := rfl
  rw [hr, hw, hp, Nat.testBit_mod_two_pow]
  by_cases hj : j < 2
  · have : 2 + j < 32 := by omega
    simp [hj, this]
  · simp [hj]

theorem stat_busy_eq (base : Regfile) :
    SIMPLEAES_FIELD_READ .STAT_BUSY base = base.stat % 2 := by
  show ((base.stat % 2 ^ 32) &&& (1 <<< 0)) >>> 0 = base.stat % 2
  have h1 : (1 <<< 0) = 2 ^ 1 - 1 := by decide
  rw [h1, Nat.and_pow_two_sub_one_eq_mod, Nat.shiftRight_eq_div_pow]
  omega

/-- What the handler leaves in the channel and what it sends, by the words of
the specification. -/
theorem handler_notif_sends (d : SimpleAES) :
    (SimpleAES_IrqHandler d).2.1.notif
        = post_option d.notif (posted_per_spec d.regfile.irq d.regfile.stat)
      ∧ sends (SimpleAES_IrqHandler d).2.2
        = (posted_per_spec d.regfile.irq d.regfile.stat).toList := by
  have hread : SIMPLEAES_REG_READ .IRQ d.regfile = d.regfile.irq % U32_MOD := rfl
  unfold SimpleAES_IrqHandler posted_per_spec
  simp only [hread, bitAt_eq_one _ 0 (by decide), bitAt_eq_one _ 1 (by decide), stat_err_eq]
  by_cases h0 : d.regfile.irq.testBit 0
  · simp [h0, post_option, sends]
  · by_cases h1 : d.regfile.irq.testBit 1
    · have hlt : d.regfile.stat / 4 % 4 < 4 := Nat.mod_lt _ (by decide)
      generalize d.regfile.stat / 4 % 4 = n at hlt
      interval_cases n <;> simp [h0, h1, post_option, sends]
    · simp [h0, h1, post_option, sends]

/-! ## Lemmas: the wait -/

theorem handler_events_ok (d : SimpleAES) :
    ∀ e ∈ (SimpleAES_IrqHandler d).2.2, handlerEvent e = true := by
  unfold SimpleAES_IrqHandler
  simp only
  split_ifs
  · simp [handlerEvent]
  · split <;> simp [handlerEvent]
  · simp [handlerEvent]

theorem handler_regfile (d : SimpleAES) :
    (SimpleAES_IrqHandler d).2.1.regfile
      = SIMPLEAES_REG_WRITE (SIMPLEAES_REG_READ .IRQ d.regfile) .IRQ d.regfile := rfl

theorem wait_events_ok (d : SimpleAES) (irqs : List Irq) :
    ∀ e ∈ (wait_event_interruptible d irqs).2.2, handlerEvent e = true := by
  induction irqs generalizing d with
  | nil => unfold wait_event_interruptible; split_ifs <;> simp
  | cons q qs ih =>
    unfold wait_event_interruptible
    split_ifs
    · simp
    · intro e he
      simp only [List.mem_append] at he
      rcases he with he | he
      · exact handler_events_ok _ e he
      · exact ih _ e he

/-- The wait leaves CTRL, KAR, IAR and OAR as they are. -/
theorem wait_regfile_frame (d : SimpleAES) (irqs : List Irq) :
    (wait_event_interruptible d irqs).2.1.regfile.ctrl = d.regfile.ctrl
      ∧ (wait_event_interruptible d irqs).2.1.regfile.kar = d.regfile.kar
      ∧ (wait_event_interruptible d irqs).2.1.regfile.iar = d.regfile.iar
      ∧ (wait_event_interruptible d irqs).2.1.regfile.oar = d.regfile.oar := by
  induction irqs generalizing d with
  | nil => unfold wait_event_interruptible; split_ifs <;> simp
  | cons q qs ih =>
    unfold wait_event_interruptible
    split_ifs
    · simp
    · have := ih (SimpleAES_IrqHandler (q.raise d)).2.1
      simpa [handler_regfile, SIMPLEAES_REG_WRITE, Irq.raise] using this

/-- The wait returns 0 exactly when it leaves the flag set. -/
theorem wait_ret (d : SimpleAES) (irqs : List Irq) :
    (wait_event_interruptible d irqs).1
      = if (wait_event_interruptible d irqs).2.1.notif.flag = true then 0 else -ERESTARTSYS := by
  induction irqs generalizing d with
  | nil => unfold wait_event_interruptible; split_ifs <;> simp_all
  | cons q qs ih =>
    unfold wait_event_interruptible
    split_ifs with h1 h2 h2
    · rfl
    · simp_all
    · simp only; rw [ih]; simp_all
    · simp only; rw [ih]; simp_all

/-- The channel and the events of a wait depend on the device only through its channel. -/
theorem wait_congr (d1 d2 : SimpleAES) (irqs : List Irq) (h : d1.notif = d2.notif) :
    (wait_event_interruptible d1 irqs).1 = (wait_event_interruptible d2 irqs).1
      ∧ (wait_event_interruptible d1 irqs).2.1.notif = (wait_event_interruptible d2 irqs).2.1.notif
      ∧ (wait_event_interruptible d1 irqs).2.2 = (wait_event_interruptible d2 irqs).2.2 := by
  induction irqs generalizing d1 d2 with
  | nil => unfold wait_event_interruptible; rw [h]; split_ifs <;> simp [h]
  | cons q qs ih =>
    unfold wait_event_interruptible
    rw [h]
    split_ifs
    · simp [h]
    · have e : SimpleAES_IrqHandler (q.raise d1) = 
          (.IRQ_HANDLED, { (SimpleAES_IrqHandler (q.raise d2)).2.1 with regfile := (SimpleAES_IrqHandler (q.raise d1)).2.1.regfile }, (SimpleAES_IrqHandler (q.raise d2)).2.2) := by
        unfold SimpleAES_IrqHandler Irq.raise
        simp [h, SIMPLEAES_REG_READ, SIMPLEAES_FIELD_READ, Field.reg]
      have hn : (SimpleAES_IrqHandler (q.raise d1)).2.1.notif = (SimpleAES_IrqHandler (q.raise d2)).2.1.notif := by
        rw [e]
      have he : (SimpleAES_IrqHandler (q.raise d1)).2.2 = (SimpleAES_IrqHandler (q.raise d2)).2.2 := by
        rw [e]
      have := ih _ _ hn
      simp only [he]
      exact ⟨this.1, this.2.1, by rw [this.2.2]⟩

theorem frees_of_handlerEvents (l : List Event) (h : ∀ e ∈ l, handlerEvent e = true) :
    frees l = [] ∧ freed l = [] ∧ allocs l = [] ∧ copiesOut l = false
      ∧ eventsAfterWait l = [] ∧ eventsBeforeWait l = l := by
  induction l with
  | nil => simp [frees, freed, allocs, copiesOut, eventsAfterWait, eventsBeforeWait]
  | cons e es ih =>
    have he := h e (List.mem_cons_self _ _)
    have ih' := ih (fun x hx => h x (List.mem_cons_of_mem _ hx))
    cases e <;> simp_all [frees, freed, allocs, copiesOut, eventsAfterWait, eventsBeforeWait,
      handlerEvent]

theorem regWrites_of_handlerEvents (l : List Event) (h : ∀ e ∈ l, handlerEvent e = true) :
    ∀ p ∈ regWrites l, p.1 = Reg.IRQ := by
  induction l with
  | nil => simp [regWrites]
  | cons e es ih =>
    have he := h e (List.mem_cons_self _ _)
    have ih' := ih (fun x hx => h x (List.mem_cons_of_mem _ hx))
    intro p hp
    cases e with
    | write r v =>
      simp only [regWrites, List.mem_cons] at hp
      rcases hp with rfl | hp
      · cases r <;> simp_all [handlerEvent]
      · exact ih' p hp
    | _ => exact ih' p (by simpa [regWrites] using hp)

/-- A wait entered on an empty channel that leaves the flag set was served by a
send of its own: the data it leaves is the last result sent during the wait. -/
theorem wait_served (d : SimpleAES) (irqs : List Irq) (h0 : d.notif.flag = false)
    (h1 : (wait_event_interruptible d irqs).2.1.notif.flag = true) :
    (sends (wait_event_interruptible d irqs).2.2).getLast?
      = some (wait_event_interruptible d irqs).2.1.notif.data := by
  induction irqs generalizing d with
  | nil =>
    unfold wait_event_interruptible at h1
    simp [h0] at h1
  | cons q qs ih =>
    unfold wait_event_interruptible at h1 ⊢
    simp only [h0, Bool.false_eq_true, beq_iff_eq, if_false] at h1 ⊢
    have hp := handler_notif_sends (q.raise d)
    cases hq : posted_per_spec (q.raise d).regfile.irq (q.raise d).regfile.stat with
    | none =>
      rw [hq] at hp
      have hflag : (SimpleAES_IrqHandler (q.raise d)).2.1.notif.flag = false := by
        rw [hp.1]; simpa [post_option, Irq.raise] using h0
      have := ih _ hflag h1
      rw [sends_append, hp.2]
      simpa using this
    | some e =>
      rw [hq] at hp
      have hflag : (SimpleAES_IrqHandler (q.raise d)).2.1.notif.flag = true := by
        rw [hp.1]; simp [post_option, Notification_Error_Send]
      have hw : wait_event_interruptible (SimpleAES_IrqHandler (q.raise d)).2.1 qs
          = (0, (SimpleAES_IrqHandler (q.raise d)).2.1, []) := by
        cases qs <;> simp [wait_event_interruptible, hflag]
      rw [hw]
      simp [hp.2, hp.1, post_option, Notification_Error_Send]

/-! ## Lemmas: RunOp -/

theorem SetMode_busy (d : SimpleAES) (mode : ORG_SIMPLE_OpMode)
    (h : SIMPLEAES_FIELD_READ .STAT_BUSY d.regfile = 1) :
    SimpleAES_SetMode d mode
      = (RESULT_BOOLERROR_ERROR .ERROR_BUSY, d, [.lock, .read .STAT, .unlock]) := by
  simp [SimpleAES_SetMode, SimpleAES_Busy, h]

theorem SetMode_idle (d : SimpleAES) (mode : ORG_SIMPLE_OpMode)
    (h : SIMPLEAES_FIELD_READ .STAT_BUSY d.regfile ≠ 1) :
    SimpleAES_SetMode d mode
      = (RESULT_BOOLERROR_BOOL true,
         { d with regfile :=
            SIMPLEAES_FIELD_WRITE 1 .CTRL_IE (SIMPLEAES_FIELD_WRITE mode.toU32 .CTRL_OP d.regfile) },
         [.lock, .read .STAT, .unlock, .lock, .read .CTRL,
          .write .CTRL (FIELD_WRITE_word mode.toU32 .CTRL_OP (SIMPLEAES_REG_READ .CTRL d.regfile)),
          .read .CTRL,
          .write .CTRL (FIELD_WRITE_word 1 .CTRL_IE
            (SIMPLEAES_REG_READ .CTRL (SIMPLEAES_FIELD_WRITE mode.toU32 .CTRL_OP d.regfile))),
          .unlock]) := by
  simp [SimpleAES_SetMode, SimpleAES_Busy, h]

theorem programmed_notif (d : SimpleAES) (mode : ORG_SIMPLE_OpMode) (k i o : HwBuffer) :
    (programmed d mode k i o).notif = d.notif := by
  unfold programmed SimpleAES_SetOutputAddr SimpleAES_SetInputAddr SimpleAES_SetKeyAddr
    SimpleAES_SetMode
  simp only
  split_ifs <;> rfl

/-- The receive of a call sees what a receive on the entry state would see. -/
theorem receive_programmed (d : SimpleAES) (mode : ORG_SIMPLE_OpMode) (k i o : HwBuffer)
    (irqs : List Irq) :
    receive_outcome (programmed d mode k i o) irqs = receive_outcome d irqs := by
  have h := wait_congr (programmed d mode k i o) d irqs (programmed_notif d mode k i o)
  unfold receive_outcome
  rw [h.1, h.2.1]

/-- The call from its wait on, when nothing failed before the wait. -/
theorem RunOp_programmed (d : SimpleAES) (mode : ORG_SIMPLE_OpMode) (key i_data : Nat → Nat)
    (env : RunOpEnv) (key_buf input_buf output_buf : HwBuffer)
    (ha : allocsSucceed env key_buf input_buf output_buf)
    (hb : SIMPLEAES_FIELD_READ .STAT_BUSY d.regfile ≠ 1)
    (h1 : env.key_copy = 0) (h2 : env.input_copy = 0) :
    SimpleAES_RunOp d mode key i_data env =
      if (receive_outcome (programmed d mode key_buf input_buf output_buf) env.irqs).1 ≠ 0 then
        { ret := RESULT_BOOLERROR_ERROR .ERROR_OTHER,
          dev := { (wait_event_interruptible
                      (programmed d mode key_buf input_buf output_buf) env.irqs).2.1 with
                   notif := (receive_outcome
                      (programmed d mode key_buf input_buf output_buf) env.irqs).2.1 },
          events := programEvents d mode key_buf input_buf output_buf ++ [.wait]
            ++ (wait_event_interruptible
                  (programmed d mode key_buf input_buf output_buf) env.irqs).2.2
            ++ undo_res3 key_buf input_buf output_buf,
          key_mem := some (block_of key), input_mem := some (block_of i_data),
          recv_ret := some
            (receive_outcome (programmed d mode key_buf input_buf output_buf) env.irqs).1,
          notif_val :=
            (receive_outcome (programmed d mode key_buf input_buf output_buf) env.irqs).2.2,
          o_data := none }
      else if env.output_copy ≠ 0 then
        { ret := RESULT_BOOLERROR_ERROR .ERROR_OUTPUT,
          dev := { (wait_event_interruptible
                      (programmed d mode key_buf input_buf output_buf) env.irqs).2.1 with
                   notif := (receive_outcome
                      (programmed d mode key_buf input_buf output_buf) env.irqs).2.1 },
          events := programEvents d mode key_buf input_buf output_buf ++ [.wait]
            ++ (wait_event_interruptible
                  (programmed d mode key_buf input_buf output_buf) env.irqs).2.2
            ++ [.copy_to_user env.output_copy]
            ++ undo_res3 key_buf input_buf output_buf,
          key_mem := some (block_of key), input_mem := some (block_of i_data),
          recv_ret := some
            (receive_outcome (programmed d mode key_buf input_buf output_buf) env.irqs).1,
          notif_val :=
            (receive_outcome (programmed d mode key_buf input_buf output_buf) env.irqs).2.2,
          o_data := some (copied_bytes env.output_mem ORG_SIMPLE_KD_SIZE env.output_copy) }
      else
        { ret := RESULT_BOOLERROR_OK true,
          dev := { (wait_event_interruptible
                      (programmed d mode key_buf input_buf output_buf) env.irqs).2.1 with
                   notif := (receive_outcome
                      (programmed d mode key_buf input_buf output_buf) env.irqs).2.1 },
          events := programEvents d mode key_buf input_buf output_buf ++ [.wait]
            ++ (wait_event_interruptible
                  (programmed d mode key_buf input_buf output_buf) env.irqs).2.2
            ++ [.copy_to_user env.output_copy],
          key_mem := some (block_of key), input_mem := some (block_of i_data),
          recv_ret := some
            (receive_outcome (programmed d mode key_buf input_buf output_buf) env.irqs).1,
          notif_val :=
            (receive_outcome (programmed d mode key_buf input_buf output_buf) env.irqs).2.2,
          o_data := some (block_of env.output_mem) } := by
  obtain ⟨hk, hi, ho⟩ := ha
  unfold SimpleAES_RunOp receive_outcome programmed programEvents block_of copied_bytes
  simp only [hk, hi, ho, SetMode_idle d mode hb, h1, h2, RESULT_BOOLERROR_BOOL,
    RESULT_BOOLERROR_OK, Result_BoolError.variant, SimpleAES_SetKeyAddr, SimpleAES_SetInputAddr,
    SimpleAES_SetOutputAddr]
  simp only [reduceCtorEq, if_false, ne_eq, not_true_eq_false, Nat.sub_zero, List.append_assoc,
    List.cons_append, List.nil_append]
  split_ifs <;> simp_all

theorem wait_freed_programmed (d : SimpleAES) (irqs : List Irq) :
    freed (wait_event_interruptible d irqs).2.2 = []
      ∧ frees (wait_event_interruptible d irqs).2.2 = []
      ∧ allocs (wait_event_interruptible d irqs).2.2 = []
      ∧ copiesOut (wait_event_interruptible d irqs).2.2 = false := by
  have h := frees_of_handlerEvents _ (wait_events_ok d irqs)
  exact ⟨h.2.1, h.1, h.2.2.1, h.2.2.2.1⟩

theorem SetMode_events (d : SimpleAES) (mode : ORG_SIMPLE_OpMode) :
    freed (SimpleAES_SetMode d mode).2.2 = [] ∧ frees (SimpleAES_SetMode d mode).2.2 = []
      ∧ allocs (SimpleAES_SetMode d mode).2.2 = []
      ∧ copiesOut (SimpleAES_SetMode d mode).2.2 = false
      ∧ sends (SimpleAES_SetMode d mode).2.2 = [] := by
  unfold SimpleAES_SetMode SimpleAES_Busy
  simp only
  split_ifs <;> simp [freed, frees, allocs, copiesOut, sends]

theorem programEvents_freed (d : SimpleAES) (mode : ORG_SIMPLE_OpMode) (k i o : HwBuffer) :
    freed (programEvents d mode k i o) = [] := by
  unfold programEvents SimpleAES_SetMode SimpleAES_Busy
  simp only
  split_ifs <;> simp [freed, freed_append]

/-! ## Lemmas: register reads and writes -/

theorem REG_READ_WRITE_same (v : Nat) (reg : Reg) (base : Regfile) :
    SIMPLEAES_REG_READ reg (SIMPLEAES_REG_WRITE v reg base) = v % U32_MOD := by
  cases reg <;> simp [SIMPLEAES_REG_READ, SIMPLEAES_REG_WRITE]

theorem REG_READ_WRITE_other (v : Nat) (r1 r2 : Reg) (base : Regfile) (h : r1 ≠ r2) :
    SIMPLEAES_REG_READ r1 (SIMPLEAES_REG_WRITE v r2 base) = SIMPLEAES_REG_READ r1 base := by
  cases r1 <;> cases r2 <;> simp_all [SIMPLEAES_REG_READ, SIMPLEAES_REG_WRITE]

theorem FIELD_WRITE_word_mod (v : Nat) (f : Field) (w : Nat) :
    FIELD_WRITE_word v f w % U32_MOD = FIELD_WRITE_word v f w :=
  Nat.mod_eq_of_lt (FIELD_WRITE_word_lt v f w)

theorem fields_disjoint (f g : Field) (hg : g ≠ f) (hr : g.reg = f.reg) (j : Nat)
    (hj : j < g.width) : f.mask.testBit (g.pos + j) = false := by
  rw [fieldMask_testBit]
  cases f <;> cases g <;>
    simp_all [Field.reg, Field.pos, Field.width, SIMPLEAES_CTRL_OP_Pos, SIMPLEAES_CTRL_IE_Pos,
      SIMPLEAES_STAT_BUSY_Pos, SIMPLEAES_STAT_IRQ_Pos, SIMPLEAES_STAT_ERR_Pos,
      SIMPLEAES_IRQ_COMPLETE_Pos, SIMPLEAES_IRQ_ERR_Pos]

/-- A field write of a value that fits leaves every other field as it reads. -/
theorem FIELD_READ_WRITE_other (base : Regfile) (f g : Field) (v : Nat)
    (hv : v < 2 ^ f.width) (hg : g ≠ f) :
    SIMPLEAES_FIELD_READ g (SIMPLEAES_FIELD_WRITE v f base) = SIMPLEAES_FIELD_READ g base := by
  unfold SIMPLEAES_FIELD_READ SIMPLEAES_FIELD_WRITE
  by_cases hr : g.reg = f.reg
  · rw [hr, REG_READ_WRITE_same, FIELD_WRITE_word_mod]
    apply Nat.eq_of_testBit_eq
    intro j
    rw [field_extract_testBit, field_extract_testBit]
    by_cases hj : j < g.width
    · rw [FIELD_WRITE_word_testBit v f _ _ (REG_READ_lt _ _) hv,
        fields_disjoint f g hg hr j hj]
      simp
    · simp [hj]
  · rw [REG_READ_WRITE_other _ _ _ _ hr]

theorem FIELD_READ_WRITE_same (base : Regfile) (f : Field) (v : Nat) (hv : v < 2 ^ f.width) :
    SIMPLEAES_FIELD_READ f (SIMPLEAES_FIELD_WRITE v f base) = v := by
  unfold SIMPLEAES_FIELD_READ SIMPLEAES_FIELD_WRITE
  rw [REG_READ_WRITE_same, FIELD_WRITE_word_mod]
  exact field_readback v f _ (REG_READ_lt _ _) hv

theorem toU32_lt (mode : ORG_SIMPLE_OpMode) : mode.toU32 < 2 ^ Field.CTRL_OP.width := by
  cases mode <;> decide

/-- The registers of the programmed device, on a device that was not busy. -/
theorem programmed_regs (d : SimpleAES) (mode : ORG_SIMPLE_OpMode) (k i o : HwBuffer)
    (hb : SIMPLEAES_FIELD_READ .STAT_BUSY d.regfile ≠ 1) :
    (programmed d mode k i o).regfile.ctrl
        = (SIMPLEAES_FIELD_WRITE 1 .CTRL_IE
            (SIMPLEAES_FIELD_WRITE mode.toU32 .CTRL_OP d.regfile)).ctrl
      ∧ (programmed d mode k i o).regfile.kar = k.bus_addr % U32_MOD
      ∧ (programmed d mode k i o).regfile.iar = i.bus_addr % U32_MOD
      ∧ (programmed d mode k i o).regfile.oar = o.bus_addr % U32_MOD := by
  unfold programmed
  rw [SetMode_idle d mode hb]
  simp [SimpleAES_SetOutputAddr, SimpleAES_SetInputAddr, SimpleAES_SetKeyAddr,
    SIMPLEAES_REG_WRITE]

/-- The device a call leaves when nothing failed before its wait: CTRL, KAR,
IAR and OAR are those of the programmed device. -/
theorem RunOp_final_regs (d : SimpleAES) (mode : ORG_SIMPLE_OpMode) (key i_data : Nat → Nat)
    (env : RunOpEnv) (k i o : HwBuffer)
    (ha : allocsSucceed env k i o)
    (hb : SIMPLEAES_FIELD_READ .STAT_BUSY d.regfile ≠ 1)
    (h1 : env.key_copy = 0) (h2 : env.input_copy = 0) :
    (SimpleAES_RunOp d mode key i_data env).dev.regfile.ctrl
        = (programmed d mode k i o).regfile.ctrl
      ∧ (SimpleAES_RunOp d mode key i_data env).dev.regfile.kar
        = (programmed d mode k i o).regfile.kar
      ∧ (SimpleAES_RunOp d mode key i_data env).dev.regfile.iar
        = (programmed d mode k i o).regfile.iar
      ∧ (SimpleAES_RunOp d mode key i_data env).dev.regfile.oar
        = (programmed d mode k i o).regfile.oar := by
  have hw := wait_regfile_frame (programmed d mode k i o) env.irqs
  rw [RunOp_programmed d mode key i_data env k i o ha hb h1 h2]
  split_ifs <;> exact hw

theorem FIELD_READ_ctrl_congr (f : Field) (r1 r2 : Regfile) (hf : f.reg = .CTRL)
    (h : r1.ctrl = r2.ctrl) : SIMPLEAES_FIELD_READ f r1 = SIMPLEAES_FIELD_READ f r2 := by
  unfold SIMPLEAES_FIELD_READ
  rw [hf]
  simp [SIMPLEAES_REG_READ, h]

/-- A field write of a value that fits leaves the bits outside its mask. -/
theorem REG_READ_FIELD_WRITE_testBit (base : Regfile) (f : Field) (v i : Nat)
    (hv : v < 2 ^ f.width) (hi : f.mask.testBit i = false) :
    (SIMPLEAES_REG_READ f.reg (SIMPLEAES_FIELD_WRITE v f base)).testBit i
      = (SIMPLEAES_REG_READ f.reg base).testBit i := by
  unfold SIMPLEAES_FIELD_WRITE
  rw [REG_READ_WRITE_same, FIELD_WRITE_word_mod,
    FIELD_WRITE_word_testBit v f _ i (REG_READ_lt _ _) hv, hi]
  simp

theorem events_split_at_wait (a rest : List Event) (h : ∀ e ∈ a, e ≠ Event.wait) :
    eventsAfterWait (a ++ Event.wait :: rest) = rest
      ∧ eventsBeforeWait (a ++ Event.wait :: rest) = a := by
  induction a with
  | nil => simp [eventsAfterWait, eventsBeforeWait]
  | cons e es ih =>
    have he := h e (List.mem_cons_self _ _)
    have ih' := ih (fun x hx => h x (List.mem_cons_of_mem _ hx))
    cases e <;> simp_all [eventsAfterWait, eventsBeforeWait]

theorem programEvents_no_wait (d : SimpleAES) (mode : ORG_SIMPLE_OpMode) (k i o : HwBuffer) :
    ∀ e ∈ programEvents d mode k i o, e ≠ Event.wait := by
  unfold programEvents SimpleAES_SetMode SimpleAES_Busy
  simp only
  split_ifs <;> simp

theorem programEvents_idle (d : SimpleAES) (mode : ORG_SIMPLE_OpMode) (k i o : HwBuffer)
    (hb : SIMPLEAES_FIELD_READ .STAT_BUSY d.regfile ≠ 1) :
    sends (programEvents d mode k i o) = []
      ∧ (regWrites (programEvents d mode k i o)).map Prod.fst
          = [.CTRL, .CTRL, .KAR, .IAR, .OAR] := by
  unfold programEvents
  rw [SetMode_idle d mode hb]
  simp [sends, regWrites]

/-- The events of a call that reached its wait: the programming, the entry into
the wait, the handler runs during the wait, and a tail without sends. -/
theorem RunOp_events_shape (d : SimpleAES) (mode : ORG_SIMPLE_OpMode) (key i_data : Nat → Nat)
    (env : RunOpEnv) (k i o : HwBuffer)
    (ha : allocsSucceed env k i o)
    (hb : SIMPLEAES_FIELD_READ .STAT_BUSY d.regfile ≠ 1)
    (h1 : env.key_copy = 0) (h2 : env.input_copy = 0) :
    ∃ tail, (SimpleAES_RunOp d mode key i_data env).events
        = programEvents d mode k i o ++ Event.wait ::
            ((wait_event_interruptible (programmed d mode k i o) env.irqs).2.2 ++ tail)
      ∧ sends tail = [] := by
  rw [RunOp_programmed d mode key i_data env k i o ha hb h1 h2]
  split_ifs
  · refine ⟨undo_res3 k i o, ?_, rfl⟩
    simp only [List.append_assoc, List.singleton_append, List.cons_append, List.nil_append]
  · refine ⟨Event.copy_to_user env.output_copy :: undo_res3 k i o, ?_, rfl⟩
    simp only [List.append_assoc, List.singleton_append, List.cons_append, List.nil_append]
  · refine ⟨[Event.copy_to_user env.output_copy], ?_, rfl⟩
    simp only [List.append_assoc, List.singleton_append, List.cons_append, List.nil_append]

/-! ## The claims -/

/-- C1 fails on the success path: on the idle device, with the three
allocations and the copies succeeding and the completion received, the call
returns success having freed none of the three buffers it allocated. -/
theorem RunOp_success_frees_nothing :
    (SimpleAES_RunOp dev_idle .ORG_SIMPLE_OPMODE_ENCRYPT bytes_id bytes_id env_ok).ret
        = RESULT_BOOLERROR_OK true
      ∧ allocs (SimpleAES_RunOp dev_idle .ORG_SIMPLE_OPMODE_ENCRYPT bytes_id bytes_id
            env_ok).events = [(.key, some buf_k), (.input, some buf_i), (.output, some buf_o)]
      ∧ freed (SimpleAES_RunOp dev_idle .ORG_SIMPLE_OPMODE_ENCRYPT bytes_id bytes_id
            env_ok).events = []
      ∧ freeCount .key buf_k (SimpleAES_RunOp dev_idle .ORG_SIMPLE_OPMODE_ENCRYPT bytes_id
            bytes_id env_ok).events = 0 := by
  decide

/-- C2 as stated fails: with STAT.BUSY set at entry the three buffers are
allocated before the busy check is reached, and when an allocation fails the
call returns the error of that allocation, not ERROR_BUSY. -/
theorem RunOp_busy_allocates_first :
    SIMPLEAES_FIELD_READ .STAT_BUSY dev_busy.regfile = 1
      ∧ allocs (SimpleAES_RunOp dev_busy .ORG_SIMPLE_OPMODE_ENCRYPT bytes_id bytes_id
            env_ok).events = [(.key, some buf_k), (.input, some buf_i), (.output, some buf_o)]
      ∧ (SimpleAES_RunOp dev_busy .ORG_SIMPLE_OPMODE_ENCRYPT bytes_id bytes_id
            env_output_alloc_fails).ret = RESULT_BOOLERROR_ERROR .ERROR_OUTPUT := by
  decide

/-- C2 amended: with STAT.BUSY set at entry and the three allocations
succeeding, the call returns ERROR_BUSY, reads STAT once and no other register,
writes no register and leaves the device as it was, copies nothing, and frees
the three buffers it allocated: output, input, key. -/
theorem RunOp_busy_after_allocation (d : SimpleAES) (mode : ORG_SIMPLE_OpMode)
    (key i_data : Nat → Nat) (env : RunOpEnv) (key_buf input_buf output_buf : HwBuffer)
    (hbusy : SIMPLEAES_FIELD_READ .STAT_BUSY d.regfile = 1)
    (ha : allocsSucceed env key_buf input_buf output_buf) :
    (SimpleAES_RunOp d mode key i_data env).ret = RESULT_BOOLERROR_ERROR .ERROR_BUSY
      ∧ regReads (SimpleAES_RunOp d mode key i_data env).events = [.STAT]
      ∧ regWrites (SimpleAES_RunOp d mode key i_data env).events = []
      ∧ (SimpleAES_RunOp d mode key i_data env).dev = d
      ∧ allocs (SimpleAES_RunOp d mode key i_data env).events
          = [(.key, some key_buf), (.input, some input_buf), (.output, some output_buf)]
      ∧ freed (SimpleAES_RunOp d mode key i_data env).events
          = [(.output, output_buf), (.input, input_buf), (.key, key_buf)]
      ∧ (SimpleAES_RunOp d mode key i_data env).key_mem = none
      ∧ (SimpleAES_RunOp d mode key i_data env).input_mem = none
      ∧ (SimpleAES_RunOp d mode key i_data env).o_data = none := by
  obtain ⟨hk, hi, ho⟩ := ha
  simp [SimpleAES_RunOp, hk, hi, ho, SetMode_busy d mode hbusy, RESULT_BOOLERROR_ERROR,
    RESULT_BOOLERROR_ERR, Result_BoolError.variant, regReads, regWrites, allocs, freed,
    undo_res3, undo_res2, undo_res1]

/-- Witness for C2 amended: the busy device with three successful allocations. -/
theorem RunOp_busy_after_allocation_witness :
    SIMPLEAES_FIELD_READ .STAT_BUSY dev_busy.regfile = 1
      ∧ allocsSucceed env_ok buf_k buf_i buf_o
      ∧ (SimpleAES_RunOp dev_busy .ORG_SIMPLE_OPMODE_ENCRYPT bytes_id bytes_id env_ok).ret
          = RESULT_BOOLERROR_ERROR .ERROR_BUSY
      ∧ regReads (SimpleAES_RunOp dev_busy .ORG_SIMPLE_OPMODE_ENCRYPT bytes_id bytes_id
            env_ok).events = [.STAT] :=
  have h := RunOp_busy_after_allocation dev_busy .ORG_SIMPLE_OPMODE_ENCRYPT bytes_id bytes_id
    env_ok buf_k buf_i buf_o (by decide) (by decide)
  ⟨by decide, by decide, h.1, h.2.1⟩

/-- C3 fails: when the interrupt handler posts ERROR_KEY (IRQ.ERR set,
STAT.ERR = 1), the call stores it in `notif_val`, never looks at it, copies the
output buffer to the caller, returns success and frees no buffer. -/
theorem RunOp_ignores_posted_error :
    sends (SimpleAES_RunOp dev_idle .ORG_SIMPLE_OPMODE_ENCRYPT bytes_id bytes_id
        env_key_error).events = [.ERROR_KEY]
      ∧ (SimpleAES_RunOp dev_idle .ORG_SIMPLE_OPMODE_ENCRYPT bytes_id bytes_id
            env_key_error).notif_val = some .ERROR_KEY
      ∧ (SimpleAES_RunOp dev_idle .ORG_SIMPLE_OPMODE_ENCRYPT bytes_id bytes_id
            env_key_error).ret = RESULT_BOOLERROR_OK true
      ∧ copiesOut (SimpleAES_RunOp dev_idle .ORG_SIMPLE_OPMODE_ENCRYPT bytes_id bytes_id
            env_key_error).events = true
      ∧ (SimpleAES_RunOp dev_idle .ORG_SIMPLE_OPMODE_ENCRYPT bytes_id bytes_id
            env_key_error).o_data = some (block_of bytes_id)
      ∧ freed (SimpleAES_RunOp dev_idle .ORG_SIMPLE_OPMODE_ENCRYPT bytes_id bytes_id
            env_key_error).events = [] := by
  decide

/-- The `IS_ERR` branches of the three allocations: when `IS_ERR` holds of the
result for buffer `b` and of none before it, the frees are exactly the buffers
acquired before `b`, in reverse order of acquisition and with the addresses
that were allocated; no allocation is requested after it; no register is read
or written and the device is left as it was; the call returns the error of `b`
(ERROR_KEY, ERROR_INPUT, ERROR_OUTPUT). -/
theorem RunOp_alloc_failure_unwind (d : SimpleAES) (mode : ORG_SIMPLE_OpMode)
    (key i_data : Nat → Nat) (env : RunOpEnv) (b : Buf) (h : allocFailsAt env b) :
    frees (SimpleAES_RunOp d mode key i_data env).events = acquiredBefore b
      ∧ freed (SimpleAES_RunOp d mode key i_data env).events
          = (acquiredBefore b).filterMap (fun x => (env.allocOf x).map (fun a => (x, a)))
      ∧ allocs (SimpleAES_RunOp d mode key i_data env).events
          = (requestedUpTo b).map (fun x => (x, env.allocOf x))
      ∧ regWrites (SimpleAES_RunOp d mode key i_data env).events = []
      ∧ regReads (SimpleAES_RunOp d mode key i_data env).events = []
      ∧ (SimpleAES_RunOp d mode key i_data env).dev = d
      ∧ (SimpleAES_RunOp d mode key i_data env).ret = RESULT_BOOLERROR_ERROR (errorOfBuf b) := by
  cases b with
  | key =>
    have hk : env.key_alloc = none := h
    simp [SimpleAES_RunOp, hk, frees, freed, allocs, regWrites, regReads, acquiredBefore,
      requestedUpTo, RunOpEnv.allocOf, errorOfBuf]
  | input =>
    obtain ⟨hk, hi⟩ : env.key_alloc.isSome = true ∧ env.input_alloc = none := h
    obtain ⟨kb, hk⟩ := Option.isSome_iff_exists.mp hk
    simp [SimpleAES_RunOp, hk, hi, frees, freed, allocs, regWrites, regReads, acquiredBefore,
      requestedUpTo, RunOpEnv.allocOf, errorOfBuf, undo_res1]
  | output =>
    obtain ⟨hk, hi, ho⟩ : env.key_alloc.isSome = true ∧ env.input_alloc.isSome = true
      ∧ env.output_alloc = none := h
    obtain ⟨kb, hk⟩ := Option.isSome_iff_exists.mp hk
    obtain ⟨ib, hi⟩ := Option.isSome_iff_exists.mp hi
    simp [SimpleAES_RunOp, hk, hi, ho, frees, freed, allocs, regWrites, regReads,
      acquiredBefore, requestedUpTo, RunOpEnv.allocOf, errorOfBuf, undo_res1, undo_res2]

/-- The `IS_ERR` branch of the third allocation at a concrete input: the input
buffer and then the key buffer are freed and ERROR_OUTPUT is returned. -/
theorem RunOp_alloc_failure_unwind_witness :
    allocFailsAt env_output_alloc_fails .output
      ∧ freed (SimpleAES_RunOp dev_idle .ORG_SIMPLE_OPMODE_DECRYPT bytes_id bytes_id
            env_output_alloc_fails).events = [(.input, buf_i), (.key, buf_k)]
      ∧ regWrites (SimpleAES_RunOp dev_idle .ORG_SIMPLE_OPMODE_DECRYPT bytes_id bytes_id
            env_output_alloc_fails).events = []
      ∧ (SimpleAES_RunOp dev_idle .ORG_SIMPLE_OPMODE_DECRYPT bytes_id bytes_id
            env_output_alloc_fails).ret = RESULT_BOOLERROR_ERROR .ERROR_OUTPUT :=
  have h := RunOp_alloc_failure_unwind dev_idle .ORG_SIMPLE_OPMODE_DECRYPT bytes_id bytes_id
    env_output_alloc_fails .output (by decide)
  ⟨by decide, h.2.1, h.2.2.2.1, h.2.2.2.2.2.2⟩

/-- C5: on an idle device with three buffers allocated, a key copy fault gives
ERROR_KEY, an input copy fault ERROR_INPUT, a receive without result
ERROR_OTHER, an output copy fault after a receive that returned 0 ERROR_OUTPUT;
each time the error variant is returned, never success, and the frees are
output, input, key, in this order, each of the allocated buffer. -/
theorem RunOp_fault_error_and_unwind (d : SimpleAES) (mode : ORG_SIMPLE_OpMode)
    (key i_data : Nat → Nat) (env : RunOpEnv) (key_buf input_buf output_buf : HwBuffer)
    (f : Fault)
    (ha : allocsSucceed env key_buf input_buf output_buf)
    (hb : SIMPLEAES_FIELD_READ .STAT_BUSY d.regfile ≠ 1)
    (hf : faultAt d env f) :
    (SimpleAES_RunOp d mode key i_data env).ret = RESULT_BOOLERROR_ERROR (errorOfFault f)
      ∧ (SimpleAES_RunOp d mode key i_data env).ret.variant = .RESULT_ERR
      ∧ (SimpleAES_RunOp d mode key i_data env).ret ≠ RESULT_BOOLERROR_OK true
      ∧ freed (SimpleAES_RunOp d mode key i_data env).events
          = [(.output, output_buf), (.input, input_buf), (.key, key_buf)] := by
  have hprog := receive_programmed d mode key_buf input_buf output_buf env.irqs
  have hw := wait_freed_programmed (programmed d mode key_buf input_buf output_buf) env.irqs
  have hpe := programEvents_freed d mode key_buf input_buf output_buf
  cases f with
  | keyCopy =>
    obtain ⟨hk, hi, ho⟩ := ha
    have hf' : env.key_copy ≠ 0 := hf
    simp [SimpleAES_RunOp, hk, hi, ho, SetMode_idle d mode hb, hf', errorOfFault,
      RESULT_BOOLERROR_BOOL, RESULT_BOOLERROR_OK, RESULT_BOOLERROR_ERROR, RESULT_BOOLERROR_ERR,
      Result_BoolError.variant, freed, freed_append, undo_res3, undo_res2, undo_res1]
  | inputCopy =>
    obtain ⟨hk, hi, ho⟩ := ha
    obtain ⟨h1, h2⟩ : env.key_copy = 0 ∧ env.input_copy ≠ 0 := hf
    simp [SimpleAES_RunOp, hk, hi, ho, SetMode_idle d mode hb, h1, h2, errorOfFault,
      RESULT_BOOLERROR_BOOL, RESULT_BOOLERROR_OK, RESULT_BOOLERROR_ERROR, RESULT_BOOLERROR_ERR,
      Result_BoolError.variant, freed, freed_append, undo_res3, undo_res2, undo_res1]
  | noResult =>
    obtain ⟨h1, h2, h3⟩ : env.key_copy = 0 ∧ env.input_copy = 0
      ∧ (receive_outcome d env.irqs).1 = -EAGAIN := hf
    rw [RunOp_programmed d mode key i_data env key_buf input_buf output_buf ha hb h1 h2,
      hprog, h3]
    have h3' : (-EAGAIN : Int) ≠ 0 := by decide
    simp [h3', errorOfFault, RESULT_BOOLERROR_OK, RESULT_BOOLERROR_ERROR, RESULT_BOOLERROR_ERR,
      Result_BoolError.variant, freed, freed_append, undo_res3, undo_res2, undo_res1,
      hw.1, hpe, (SetMode_events d mode).1]
  | outputCopy =>
    obtain ⟨h1, h2, h3, h4⟩ : env.key_copy = 0 ∧ env.input_copy = 0
      ∧ (receive_outcome d env.irqs).1 = 0 ∧ env.output_copy ≠ 0 := hf
    rw [RunOp_programmed d mode key i_data env key_buf input_buf output_buf ha hb h1 h2,
      hprog, h3]
    simp [h4, errorOfFault, RESULT_BOOLERROR_OK, RESULT_BOOLERROR_ERROR, RESULT_BOOLERROR_ERR,
      Result_BoolError.variant, freed, freed_append, undo_res3, undo_res2, undo_res1,
      hw.1, hpe, (SetMode_events d mode).1]

/-- Witness for C5: on the idle device the copy out faults after completion;
ERROR_OUTPUT is returned and output, input, key are freed. -/
theorem RunOp_fault_error_and_unwind_witness :
    allocsSucceed env_output_fault buf_k buf_i buf_o
      ∧ SIMPLEAES_FIELD_READ .STAT_BUSY dev_idle.regfile ≠ 1
      ∧ faultAt dev_idle env_output_fault .outputCopy
      ∧ (SimpleAES_RunOp dev_idle .ORG_SIMPLE_OPMODE_ENCRYPT bytes_id bytes_id
            env_output_fault).ret = RESULT_BOOLERROR_ERROR .ERROR_OUTPUT
      ∧ freed (SimpleAES_RunOp dev_idle .ORG_SIMPLE_OPMODE_ENCRYPT bytes_id bytes_id
            env_output_fault).events = [(.output, buf_o), (.input, buf_i), (.key, buf_k)] :=
  have h := RunOp_fault_error_and_unwind dev_idle .ORG_SIMPLE_OPMODE_ENCRYPT bytes_id bytes_id
    env_output_fault buf_k buf_i buf_o .outputCopy (by decide) (by decide) (by decide)
  ⟨by decide, by decide, by decide, h.1, h.2.2.2⟩

/-- C6: for every IRQ word and STAT word, what the handler leaves in the channel
and what it sends is the result the specification names: ERROR_OK when IRQ bit 0
is set; otherwise, when IRQ bit 1 is set, ERROR_KEY, ERROR_INPUT or ERROR_OUTPUT
for STAT.ERR 1, 2, 3 and nothing for STAT.ERR 0; nothing when neither bit is
set. When nothing is posted the channel (flag and data) is the one before. -/
theorem IrqHandler_posts_per_spec (d : SimpleAES) :
    (SimpleAES_IrqHandler d).2.1.notif
        = post_option d.notif (posted_per_spec d.regfile.irq d.regfile.stat)
      ∧ sends (SimpleAES_IrqHandler d).2.2
        = (posted_per_spec d.regfile.irq d.regfile.stat).toList
      ∧ post_option d.notif none = d.notif
      ∧ (SimpleAES_IrqHandler d).1 = .IRQ_HANDLED :=
  ⟨(handler_notif_sends d).1, (handler_notif_sends d).2, rfl, rfl⟩

/-- C7 as stated fails for a bus address of 33 bits: nothing fails in the call,
the output buffer lies at bus address `2 ^ 32`, and OAR ends holding 0. -/
theorem RunOp_truncates_bus_address :
    nothingFails dev_idle env_high_addr buf_k buf_i { cpu_addr := 12288, bus_addr := 4294967296 }
      ∧ (SimpleAES_RunOp dev_idle .ORG_SIMPLE_OPMODE_ENCRYPT bytes_id bytes_id
            env_high_addr).ret = RESULT_BOOLERROR_OK true
      ∧ SIMPLEAES_REG_READ .OAR (SimpleAES_RunOp dev_idle .ORG_SIMPLE_OPMODE_ENCRYPT bytes_id
            bytes_id env_high_addr).dev.regfile = 0 := by
  decide

/-- C7 amended: on a call in which nothing fails, CTRL.OP ends equal to the
requested mode and CTRL.IE equal to 1, every other bit of CTRL reads as before;
KAR, IAR and OAR hold the low 32 bits of the bus addresses of the key, input and
output buffers; the key and input buffers hold the 128 key and input
bytes of the caller; the 128 bytes delivered to the caller are those of the output buffer. -/
theorem RunOp_programs_device (d : SimpleAES) (mode : ORG_SIMPLE_OpMode)
    (key i_data : Nat → Nat) (env : RunOpEnv) (key_buf input_buf output_buf : HwBuffer)
    (h : nothingFails d env key_buf input_buf output_buf) :
    SIMPLEAES_FIELD_READ .CTRL_OP (SimpleAES_RunOp d mode key i_data env).dev.regfile
        = mode.toU32
      ∧ SIMPLEAES_FIELD_READ .CTRL_IE (SimpleAES_RunOp d mode key i_data env).dev.regfile = 1
      ∧ (∀ i, 2 ≤ i →
          (SIMPLEAES_REG_READ .CTRL (SimpleAES_RunOp d mode key i_data env).dev.regfile).testBit i
            = (SIMPLEAES_REG_READ .CTRL d.regfile).testBit i)
      ∧ SIMPLEAES_REG_READ .KAR (SimpleAES_RunOp d mode key i_data env).dev.regfile
          = key_buf.bus_addr % 2 ^ 32
      ∧ SIMPLEAES_REG_READ .IAR (SimpleAES_RunOp d mode key i_data env).dev.regfile
          = input_buf.bus_addr % 2 ^ 32
      ∧ SIMPLEAES_REG_READ .OAR (SimpleAES_RunOp d mode key i_data env).dev.regfile
          = output_buf.bus_addr % 2 ^ 32
      ∧ (SimpleAES_RunOp d mode key i_data env).key_mem = some (block_of key)
      ∧ (SimpleAES_RunOp d mode key i_data env).input_mem = some (block_of i_data)
      ∧ (SimpleAES_RunOp d mode key i_data env).o_data = some (block_of env.output_mem)
      ∧ (SimpleAES_RunOp d mode key i_data env).ret = RESULT_BOOLERROR_OK true := by
  obtain ⟨ha, hb, h1, h2, h3, h4⟩ := h
  have hfin := RunOp_final_regs d mode key i_data env key_buf input_buf output_buf ha hb h1 h2
  have hp := programmed_regs d mode key_buf input_buf output_buf hb
  have hctrl := hfin.1.trans hp.1
  have h1w : (1 : Nat) < 2 ^ Field.CTRL_IE.width := by decide
  have hprog := receive_programmed d mode key_buf input_buf output_buf env.irqs
  refine ⟨?_, ?_, ?_, ?_, ?_, ?_, ?_⟩
  · rw [FIELD_READ_ctrl_congr .CTRL_OP _ _ rfl hctrl,
      FIELD_READ_WRITE_other _ .CTRL_IE .CTRL_OP 1 h1w (by decide),
      FIELD_READ_WRITE_same _ .CTRL_OP _ (toU32_lt mode)]
  · rw [FIELD_READ_ctrl_congr .CTRL_IE _ _ rfl hctrl, FIELD_READ_WRITE_same _ .CTRL_IE 1 h1w]
  · intro i hi
    have e : SIMPLEAES_REG_READ .CTRL (SimpleAES_RunOp d mode key i_data env).dev.regfile
        = SIMPLEAES_REG_READ .CTRL (SIMPLEAES_FIELD_WRITE 1 .CTRL_IE
            (SIMPLEAES_FIELD_WRITE mode.toU32 .CTRL_OP d.regfile)) := by
      simp [SIMPLEAES_REG_READ, hctrl]
    have m1 : Field.CTRL_IE.mask.testBit i = false := by
      rw [fieldMask_testBit]
      have : ¬ (i - Field.CTRL_IE.pos < Field.CTRL_IE.width) := by
        show ¬ (i - 1 < 1)
        omega
      simp [this]
    have m0 : Field.CTRL_OP.mask.testBit i = false := by
      rw [fieldMask_testBit]
      have : ¬ (i - Field.CTRL_OP.pos < Field.CTRL_OP.width) := by
        show ¬ (i - 0 < 1)
        omega
      simp [this]
    rw [e]
    exact (REG_READ_FIELD_WRITE_testBit _ .CTRL_IE 1 i h1w m1).trans
      (REG_READ_FIELD_WRITE_testBit _ .CTRL_OP _ i (toU32_lt mode) m0)
  · show (SimpleAES_RunOp d mode key i_data env).dev.regfile.kar % U32_MOD = _
    rw [hfin.2.1, hp.2.1, Nat.mod_mod]; rfl
  · show (SimpleAES_RunOp d mode key i_data env).dev.regfile.iar % U32_MOD = _
    rw [hfin.2.2.1, hp.2.2.1, Nat.mod_mod]; rfl
  · show (SimpleAES_RunOp d mode key i_data env).dev.regfile.oar % U32_MOD = _
    rw [hfin.2.2.2, hp.2.2.2, Nat.mod_mod]; rfl
  · rw [RunOp_programmed d mode key i_data env key_buf input_buf output_buf ha hb h1 h2,
      hprog, h3]
    simp [h4]

/-- Witness for C7 amended: the idle device, everything succeeding, completion
by interrupt; KAR ends holding the bus address of the key buffer. -/
theorem RunOp_programs_device_witness :
    nothingFails dev_idle env_ok buf_k buf_i buf_o
      ∧ SIMPLEAES_FIELD_READ .CTRL_OP (SimpleAES_RunOp dev_idle .ORG_SIMPLE_OPMODE_DECRYPT
            bytes_id bytes_id env_ok).dev.regfile = 1
      ∧ SIMPLEAES_REG_READ .KAR (SimpleAES_RunOp dev_idle .ORG_SIMPLE_OPMODE_DECRYPT
            bytes_id bytes_id env_ok).dev.regfile = 4096 :=
  have h := RunOp_programs_device dev_idle .ORG_SIMPLE_OPMODE_DECRYPT bytes_id bytes_id env_ok
    buf_k buf_i buf_o (by decide)
  ⟨by decide, h.1, h.2.2.2.1⟩

/-- C8 as stated fails: the macro does not mask the value, so writing 2 to the
one-bit field CTRL.OP of an all-zero CTRL word sets bit 1, which lies outside
the mask of OP, and CTRL.IE reads 1 afterwards. -/
theorem FIELD_WRITE_unmasked_value_clobbers :
    Field.CTRL_OP.mask.testBit 1 = false
      ∧ (FIELD_WRITE_word 2 .CTRL_OP 0).testBit 1 = true
      ∧ (0 : Nat).testBit 1 = false
      ∧ SIMPLEAES_FIELD_READ .CTRL_IE dev_idle.regfile = 0
      ∧ SIMPLEAES_FIELD_READ .CTRL_IE (SIMPLEAES_FIELD_WRITE 2 .CTRL_OP dev_idle.regfile) = 1 := by
  decide

/-- C8 amended: for every 32-bit word `w`, every named field `f` and every value
`v` that fits the width of `f`, the word written back agrees with `w` on every
bit outside the mask of `f`; on the register file every other field reads as
before and `f` reads `v`. -/
theorem FIELD_WRITE_preserves_other_fields (w v : Nat) (f : Field) (base : Regfile)
    (hw : w < 2 ^ 32) (hv : v < 2 ^ f.width) :
    (∀ i, f.mask.testBit i = false → (FIELD_WRITE_word v f w).testBit i = w.testBit i)
      ∧ (∀ g, g ≠ f →
          SIMPLEAES_FIELD_READ g (SIMPLEAES_FIELD_WRITE v f base) = SIMPLEAES_FIELD_READ g base)
      ∧ SIMPLEAES_FIELD_READ f (SIMPLEAES_FIELD_WRITE v f base) = v := by
  refine ⟨?_, ?_, FIELD_READ_WRITE_same base f v hv⟩
  · intro i hi
    rw [FIELD_WRITE_word_testBit v f w i hw hv, hi]
    simp
  · intro g hg
    exact FIELD_READ_WRITE_other base f g v hv hg

/-- Witness for C8 amended: writing 1 to CTRL.IE of the word `0x5`. -/
theorem FIELD_WRITE_preserves_other_fields_witness :
    (5 : Nat) < 2 ^ 32 ∧ (1 : Nat) < 2 ^ Field.CTRL_IE.width
      ∧ (FIELD_WRITE_word 1 .CTRL_IE 5).testBit 0 = (5 : Nat).testBit 0
      ∧ SIMPLEAES_FIELD_READ .CTRL_IE (SIMPLEAES_FIELD_WRITE 1 .CTRL_IE dev_idle.regfile) = 1 :=
  have h := FIELD_WRITE_preserves_other_fields 5 1 .CTRL_IE dev_idle.regfile
    (by decide) (by decide)
  ⟨by decide, by decide, h.1 0 (by decide), h.2.2⟩

/-- C9: after Send(a) and Send(b) with no Receive between them, a Receive whose
wait returned 0 stores b, returns 0 and leaves the flag clear; the wait itself
returns 0 at once on the posted channel, whatever interrupts are due; a
following Receive on the channel so left returns -EAGAIN whatever its wait
returned, stores nothing and leaves the channel as it is. -/
theorem Notification_last_write_wins_consumed_once (n : Notification_Error)
    (a b : ORG_SIMPLE_Error) (ret : Int) (regs : Regfile) (irqs : List Irq) :
    Notification_Error_Receive
        (Notification_Error_Send (Notification_Error_Send n a) b) 0
        = (0, { data := b, flag := false }, some b)
      ∧ wait_event_interruptible
          { notif := Notification_Error_Send (Notification_Error_Send n a) b, regfile := regs }
          irqs
        = (0, { notif := Notification_Error_Send (Notification_Error_Send n a) b,
                regfile := regs }, [])
      ∧ Notification_Error_Receive
          (Notification_Error_Receive
            (Notification_Error_Send (Notification_Error_Send n a) b) 0).2.1 ret
        = (-EAGAIN, { data := b, flag := false }, none) := by
  refine ⟨?_, ?_, ?_⟩
  · simp [Notification_Error_Receive, Notification_Error_Send]
  · cases irqs <;> simp [wait_event_interruptible, Notification_Error_Send]
  · simp [Notification_Error_Receive, Notification_Error_Send]

/-- C10 as stated fails: a result left pending before a call starts is consumed
by that call. On a device where a key error was posted while no caller waited,
and on a device where a completion was posted after an earlier call had failed
before its receive, a call during which no interrupt fires and nothing is sent
takes the pending result, copies the output buffer out and returns success. -/
theorem RunOp_consumes_stale_result :
    dev_stale.notif = { data := .ERROR_KEY, flag := true }
      ∧ sends (SimpleAES_RunOp dev_stale .ORG_SIMPLE_OPMODE_ENCRYPT bytes_id bytes_id
            env_no_irq).events = []
      ∧ (SimpleAES_RunOp dev_stale .ORG_SIMPLE_OPMODE_ENCRYPT bytes_id bytes_id
            env_no_irq).notif_val = some .ERROR_KEY
      ∧ (SimpleAES_RunOp dev_stale .ORG_SIMPLE_OPMODE_ENCRYPT bytes_id bytes_id
            env_no_irq).ret = RESULT_BOOLERROR_OK true
      ∧ (SimpleAES_RunOp dev_stale .ORG_SIMPLE_OPMODE_ENCRYPT bytes_id bytes_id
            env_no_irq).o_data = some (block_of bytes_id)
      ∧ (SimpleAES_RunOp dev_idle .ORG_SIMPLE_OPMODE_ENCRYPT bytes_id bytes_id
            env_key_copy_fault).recv_ret = none
      ∧ dev_after_failed_call.notif = { data := .ERROR_OK, flag := true }
      ∧ sends (SimpleAES_RunOp dev_after_failed_call .ORG_SIMPLE_OPMODE_DECRYPT bytes_id
            bytes_id env_no_irq).events = []
      ∧ (SimpleAES_RunOp dev_after_failed_call .ORG_SIMPLE_OPMODE_DECRYPT bytes_id bytes_id
            env_no_irq).notif_val = some .ERROR_OK
      ∧ (SimpleAES_RunOp dev_after_failed_call .ORG_SIMPLE_OPMODE_DECRYPT bytes_id bytes_id
            env_no_irq).ret = RESULT_BOOLERROR_OK true := by
  decide

/-- C10 amended: when the channel is empty as a call starts, the result the
wait of the call consumes was posted during that wait, after the call programmed
the device: it is the last result sent after the wait was entered, nothing was
sent before, and CTRL (twice), KAR, IAR and OAR were written before. -/
theorem RunOp_consumes_post_of_own_wait (d : SimpleAES) (mode : ORG_SIMPLE_OpMode)
    (key i_data : Nat → Nat) (env : RunOpEnv) (v : ORG_SIMPLE_Error)
    (h0 : d.notif.flag = false)
    (hv : (SimpleAES_RunOp d mode key i_data env).notif_val = some v) :
    (sends (eventsAfterWait (SimpleAES_RunOp d mode key i_data env).events)).getLast? = some v
      ∧ sends (eventsBeforeWait (SimpleAES_RunOp d mode key i_data env).events) = []
      ∧ (regWrites (eventsBeforeWait (SimpleAES_RunOp d mode key i_data env).events)).map
          Prod.fst = [.CTRL, .CTRL, .KAR, .IAR, .OAR] := by
  cases hk : env.key_alloc with
  | none => simp [SimpleAES_RunOp, hk] at hv
  | some kb =>
  cases hi : env.input_alloc with
  | none => simp [SimpleAES_RunOp, hk, hi] at hv
  | some ib =>
  cases ho : env.output_alloc with
  | none => simp [SimpleAES_RunOp, hk, hi, ho] at hv
  | some ob =>
  by_cases hb : SIMPLEAES_FIELD_READ .STAT_BUSY d.regfile = 1
  · simp [SimpleAES_RunOp, hk, hi, ho, SetMode_busy d mode hb, RESULT_BOOLERROR_ERROR,
      RESULT_BOOLERROR_ERR, Result_BoolError.variant] at hv
  by_cases h1 : env.key_copy = 0
  swap
  · simp [SimpleAES_RunOp, hk, hi, ho, SetMode_idle d mode hb, RESULT_BOOLERROR_BOOL,
      RESULT_BOOLERROR_OK, Result_BoolError.variant, h1] at hv
  by_cases h2 : env.input_copy = 0
  swap
  · simp [SimpleAES_RunOp, hk, hi, ho, SetMode_idle d mode hb, RESULT_BOOLERROR_BOOL,
      RESULT_BOOLERROR_OK, Result_BoolError.variant, h1, h2] at hv
  have ha : allocsSucceed env kb ib ob := ⟨hk, hi, ho⟩
  have hnv : (receive_outcome (programmed d mode kb ib ob) env.irqs).2.2 = some v := by
    rw [RunOp_programmed d mode key i_data env kb ib ob ha hb h1 h2] at hv
    split_ifs at hv <;> exact hv
  have hP : (programmed d mode kb ib ob).notif.flag = false := by
    rw [programmed_notif]; exact h0
  have hflag : (wait_event_interruptible (programmed d mode kb ib ob) env.irqs).2.1.notif.flag
      = true := by
    unfold receive_outcome Notification_Error_Receive at hnv
    by_contra hc
    simp [hc] at hnv
  have hdata : (wait_event_interruptible (programmed d mode kb ib ob) env.irqs).2.1.notif.data
      = v := by
    unfold receive_outcome Notification_Error_Receive at hnv
    simpa [hflag] using hnv
  have hserved := wait_served (programmed d mode kb ib ob) env.irqs hP hflag
  rw [hdata] at hserved
  have hnw := programEvents_no_wait d mode kb ib ob
  have hpe := programEvents_idle d mode kb ib ob hb
  obtain ⟨tail, hev, htail⟩ :=
    RunOp_events_shape d mode key i_data env kb ib ob ha hb h1 h2
  rw [hev, (events_split_at_wait _ _ hnw).1, (events_split_at_wait _ _ hnw).2, sends_append,
    htail, List.append_nil]
  exact ⟨hserved, hpe.1, hpe.2⟩

/-- Witness for C10 amended: the idle device with an empty channel; the
completion posted by the interrupt during the wait is the result consumed. -/
theorem RunOp_consumes_post_of_own_wait_witness :
    dev_idle.notif.flag = false
      ∧ (SimpleAES_RunOp dev_idle .ORG_SIMPLE_OPMODE_ENCRYPT bytes_id bytes_id
            env_ok).notif_val = some .ERROR_OK
      ∧ (sends (eventsAfterWait (SimpleAES_RunOp dev_idle .ORG_SIMPLE_OPMODE_ENCRYPT bytes_id
            bytes_id env_ok).events)).getLast? = some .ERROR_OK :=
  have h := RunOp_consumes_post_of_own_wait dev_idle .ORG_SIMPLE_OPMODE_ENCRYPT bytes_id
    bytes_id env_ok .ERROR_OK (by decide) (by decide)
  ⟨by decide, by decide, h.1⟩

/-! ## Lemmas: the register lock -/

theorem lockRun_append (h : Bool) (a b : List Event) :
    lockRun h (a ++ b) = (lockRun h a).bind (fun h1 => lockRun h1 b) := by
  induction a generalizing h with
  | nil => rfl
  | cons e es ih =>
    simp only [List.cons_append, lockRun]
    cases lockStep h e with
    | none => rfl
    | some h1 => exact ih h1

theorem lockRun_handler (d : SimpleAES) :
    lockRun false (SimpleAES_IrqHandler d).2.2 = some false := by
  unfold SimpleAES_IrqHandler
  simp only
  split_ifs
  · rfl
  · split <;> rfl
  · rfl

theorem lockRun_wait (d : SimpleAES) (irqs : List Irq) :
    lockRun false (wait_event_interruptible d irqs).2.2 = some false := by
  induction irqs generalizing d with
  | nil => unfold wait_event_interruptible; split_ifs <;> rfl
  | cons q qs ih =>
    unfold wait_event_interruptible
    split_ifs
    · rfl
    · simp [lockRun_append, lockRun_handler, ih]

theorem lockRun_SetMode (d : SimpleAES) (mode : ORG_SIMPLE_OpMode) :
    lockRun false (SimpleAES_SetMode d mode).2.2 = some false := by
  unfold SimpleAES_SetMode SimpleAES_Busy
  simp only
  split_ifs <;> rfl

theorem lockRun_programEvents (d : SimpleAES) (mode : ORG_SIMPLE_OpMode) (k i o : HwBuffer) :
    lockRun false (programEvents d mode k i o) = some false := by
  unfold programEvents
  simp [lockRun_append, lockRun_SetMode, lockRun, lockStep]

/-- A run that keeps the discipline and ends with the lock free has the lock
free when it first enters the wait. -/
theorem lockRun_before_wait (h : Bool) (l : List Event) (hl : lockRun h l = some false) :
    lockRun h (eventsBeforeWait l) = some false := by
  induction l generalizing h with
  | nil => exact hl
  | cons e es ih =>
    cases e with
    | wait =>
      cases h with
      | true => simp [lockRun, lockStep] at hl
      | false => rfl
    | lock | unlock | read r | write r v | alloc b r | free b x | copy_from_user b n
    | copy_to_user n | send x =>
      simp only [eventsBeforeWait, lockRun] at hl ⊢
      cases hs : lockStep h _ with
      | none => rw [hs] at hl; exact absurd hl (by simp)
      | some h1 => rw [hs] at hl; simp only; exact ih h1 hl

/-- The events of a call that reached its wait, with a tail that leaves the
register lock alone. -/
theorem RunOp_events_tail_lock (d : SimpleAES) (mode : ORG_SIMPLE_OpMode)
    (key i_data : Nat → Nat) (env : RunOpEnv) (k i o : HwBuffer)
    (ha : allocsSucceed env k i o)
    (hb : SIMPLEAES_FIELD_READ .STAT_BUSY d.regfile ≠ 1)
    (h1 : env.key_copy = 0) (h2 : env.input_copy = 0) :
    ∃ tail, (SimpleAES_RunOp d mode key i_data env).events
        = programEvents d mode k i o ++ Event.wait ::
            ((wait_event_interruptible (programmed d mode k i o) env.irqs).2.2 ++ tail)
      ∧ lockRun false tail = some false := by
  rw [RunOp_programmed d mode key i_data env k i o ha hb h1 h2]
  split_ifs
  · refine ⟨undo_res3 k i o, ?_, rfl⟩
    simp only [List.append_assoc, List.singleton_append, List.cons_append, List.nil_append]
  · refine ⟨Event.copy_to_user env.output_copy :: undo_res3 k i o, ?_, rfl⟩
    simp only [List.append_assoc, List.singleton_append, List.cons_append, List.nil_append]
  · refine ⟨[Event.copy_to_user env.output_copy], ?_, rfl⟩
    simp only [List.append_assoc, List.singleton_append, List.cons_append, List.nil_append]

/-- The check against the register lock does reject what breaks the discipline:
an access with the lock free, a second acquisition, a wait with the lock held,
a release of a free lock; and it reports a lock left held. -/
theorem lockRun_rejects :
    lockRun false [.read .STAT] = none
      ∧ lockRun false [.lock, .lock] = none
      ∧ lockRun false [.lock, .wait] = none
      ∧ lockRun false [.unlock] = none
      ∧ lockRun false [.lock, .write .KAR 0] = some true := by
  decide
/-! ## The claims on the handler frame, the request surface, probe and the lock -/

/-- C11: for every IRQ word `r` the handler reads, its last register access is
the write of `r` to IRQ, also when nothing is posted; it writes no other
register, so CTRL, STAT, KAR, IAR and OAR are left as they were and IRQ holds
`r`; it returns IRQ_HANDLED. -/
theorem IrqHandler_acknowledges_irq (d : SimpleAES) :
    (regAccesses (SimpleAES_IrqHandler d).2.2).getLast?
        = some (.write .IRQ (SIMPLEAES_REG_READ .IRQ d.regfile))
      ∧ (regAccesses (SimpleAES_IrqHandler d).2.2).head?
        = some (.read .IRQ)
      ∧ regWrites (SimpleAES_IrqHandler d).2.2 = [(.IRQ, SIMPLEAES_REG_READ .IRQ d.regfile)]
      ∧ (SimpleAES_IrqHandler d).2.1.regfile
        = { d.regfile with irq := SIMPLEAES_REG_READ .IRQ d.regfile }
      ∧ (SimpleAES_IrqHandler d).2.1.regfile.ctrl = d.regfile.ctrl
      ∧ (SimpleAES_IrqHandler d).2.1.regfile.stat = d.regfile.stat
      ∧ (SimpleAES_IrqHandler d).2.1.regfile.kar = d.regfile.kar
      ∧ (SimpleAES_IrqHandler d).2.1.regfile.iar = d.regfile.iar
      ∧ (SimpleAES_IrqHandler d).2.1.regfile.oar = d.regfile.oar
      ∧ (SimpleAES_IrqHandler d).1 = .IRQ_HANDLED := by
  have hmod : SIMPLEAES_REG_READ .IRQ d.regfile % U32_MOD = SIMPLEAES_REG_READ .IRQ d.regfile :=
    Nat.mod_eq_of_lt (REG_READ_lt _ _)
  refine ⟨?_, ?_, ?_, ?_, rfl, rfl, rfl, rfl, rfl, rfl⟩
  · unfold SimpleAES_IrqHandler
    simp only
    split_ifs
    · simp [regAccesses, hmod]
    · split <;> simp [regAccesses, hmod]
    · simp [regAccesses, hmod]
  · unfold SimpleAES_IrqHandler
    simp only
    split_ifs
    · simp [regAccesses]
    · split <;> simp [regAccesses]
    · simp [regAccesses]
  · unfold SimpleAES_IrqHandler
    simp only
    split_ifs
    · simp [regWrites, hmod]
    · split <;> simp [regWrites, hmod]
    · simp [regWrites, hmod]
  · unfold SimpleAES_IrqHandler
    simp [SIMPLEAES_REG_WRITE, hmod]
/-- C12 fails: the switch has no `break`. Whatever the command and the
environment, the call never returns 0. A Decrypt request whose argument copy and
operation succeed returns -EINVAL; an Encrypt request whose argument copy and
operation succeed runs a second operation, in Decrypt mode, and returns
-EINVAL. -/
theorem ioctl_falls_through :
    (∀ (d : SimpleAES) (cmd : Nat) (key i_data : Nat → Nat) (env : IoctlEnv),
        (simpleaes_cdev_ioctl d cmd key i_data env).ret ≠ 0)
      ∧ (simpleaes_cdev_ioctl dev_idle IOCTL_DECRYPT bytes_id bytes_id ioctl_ok).ops
          = [(.ORG_SIMPLE_OPMODE_DECRYPT, RESULT_BOOLERROR_OK true)]
      ∧ (simpleaes_cdev_ioctl dev_idle IOCTL_DECRYPT bytes_id bytes_id ioctl_ok).ret = -EINVAL
      ∧ (simpleaes_cdev_ioctl dev_idle IOCTL_ENCRYPT bytes_id bytes_id ioctl_ok).ops
          = [(.ORG_SIMPLE_OPMODE_ENCRYPT, RESULT_BOOLERROR_OK true),
             (.ORG_SIMPLE_OPMODE_DECRYPT, RESULT_BOOLERROR_OK true)]
      ∧ (simpleaes_cdev_ioctl dev_idle IOCTL_ENCRYPT bytes_id bytes_id ioctl_ok).ret
          = -EINVAL := by
  refine ⟨?_, by decide, by decide, by decide, by decide⟩
  intro d cmd key i_data env
  unfold simpleaes_cdev_ioctl ioctl_case_ENCRYPT ioctl_case_DECRYPT ioctl_default
  simp only
  split_ifs <;> simp [EFAULT, EIO, EINVAL]
/-- C13 fails in `SimpleAES_probe`. When `clk_prepare_enable` fails after
`request_irq` succeeded, the interrupt is acquired and nothing is released.
When `alloc_chrdev_region` fails, and when `device_create` fails, the interrupt
is released before the clock, which is the order of acquisition and not its
reverse. `SimpleAES_remove` does release the clock before the interrupt. -/
theorem probe_unwind_out_of_order :
    SimpleAES_probe probe_clk_fails = (-5, [.acquire .irq])
      ∧ acquired (SimpleAES_probe probe_clk_fails).2 = [.irq]
      ∧ released (SimpleAES_probe probe_clk_fails).2 = []
      ∧ acquired (SimpleAES_probe probe_chrdev_fails).2 = [.irq, .clk]
      ∧ released (SimpleAES_probe probe_chrdev_fails).2 = [.irq, .clk]
      ∧ acquired (SimpleAES_probe probe_device_fails).2
          = [.irq, .clk, .chrdev_region, .cdev, .cls]
      ∧ released (SimpleAES_probe probe_device_fails).2
          = [.cls, .cdev, .chrdev_region, .irq, .clk]
      ∧ released SimpleAES_remove = [.device, .cls, .cdev, .chrdev_region, .clk, .irq] := by
  decide
/-- C14: run against the register lock, starting with the lock free, the events
of SimpleAES_IrqHandler, SimpleAES_Busy, SimpleAES_SetMode (busy or not), the
three address setters and SimpleAES_RunOp (on every path) keep the discipline
and end with the lock free: every register read or write happens with the lock
held, every acquisition finds the lock free and is followed by its release,
and the blocking wait of RunOp is entered with the lock free. -/
theorem register_lock_discipline (d : SimpleAES) (mode : ORG_SIMPLE_OpMode) (addr : Nat)
    (key i_data : Nat → Nat) (env : RunOpEnv) :
    lockRun false (SimpleAES_IrqHandler d).2.2 = some false
      ∧ lockRun false (SimpleAES_Busy d).2 = some false
      ∧ lockRun false (SimpleAES_SetMode d mode).2.2 = some false
      ∧ lockRun false (SimpleAES_SetKeyAddr d addr).2.2 = some false
      ∧ lockRun false (SimpleAES_SetInputAddr d addr).2.2 = some false
      ∧ lockRun false (SimpleAES_SetOutputAddr d addr).2.2 = some false
      ∧ lockRun false (SimpleAES_RunOp d mode key i_data env).events = some false
      ∧ lockRun false (eventsBeforeWait (SimpleAES_RunOp d mode key i_data env).events)
          = some false := by
  have hrun : lockRun false (SimpleAES_RunOp d mode key i_data env).events = some false := by
    cases hk : env.key_alloc with
    | none => simp [SimpleAES_RunOp, hk, lockRun, lockStep]
    | some kb =>
    cases hi : env.input_alloc with
    | none => simp [SimpleAES_RunOp, hk, hi, lockRun, lockStep, undo_res1]
    | some ib =>
    cases ho : env.output_alloc with
    | none => simp [SimpleAES_RunOp, hk, hi, ho, lockRun, lockStep, undo_res1, undo_res2]
    | some ob =>
    by_cases hb : SIMPLEAES_FIELD_READ .STAT_BUSY d.regfile = 1
    · simp [SimpleAES_RunOp, hk, hi, ho, SetMode_busy d mode hb, RESULT_BOOLERROR_ERROR,
        RESULT_BOOLERROR_ERR, Result_BoolError.variant, lockRun, lockStep, undo_res1,
        undo_res2, undo_res3]
    by_cases h1 : env.key_copy = 0
    swap
    · simp [SimpleAES_RunOp, hk, hi, ho, SetMode_idle d mode hb, RESULT_BOOLERROR_BOOL,
        RESULT_BOOLERROR_OK, Result_BoolError.variant, h1, lockRun, lockStep, undo_res1,
        undo_res2, undo_res3]
    by_cases h2 : env.input_copy = 0
    swap
    · simp [SimpleAES_RunOp, hk, hi, ho, SetMode_idle d mode hb, RESULT_BOOLERROR_BOOL,
        RESULT_BOOLERROR_OK, Result_BoolError.variant, h1, h2, lockRun, lockStep, undo_res1,
        undo_res2, undo_res3]
    have hpe := lockRun_programEvents d mode kb ib ob
    have hw := lockRun_wait (programmed d mode kb ib ob) env.irqs
    obtain ⟨tail, hev, htail⟩ :=
      RunOp_events_tail_lock d mode key i_data env kb ib ob ⟨hk, hi, ho⟩ hb h1 h2
    rw [hev, lockRun_append, hpe]
    show lockRun false
      ((wait_event_interruptible (programmed d mode kb ib ob) env.irqs).2.2 ++ tail) = some false
    rw [lockRun_append, hw]
    exact htail
  refine ⟨lockRun_handler d, rfl, lockRun_SetMode d mode, rfl, rfl, rfl, hrun,
    lockRun_before_wait false _ hrun⟩

/-! ## The claim on allocation failure -/

/-- C4 fails on the failure the allocator reports. `dma_alloc_coherent` returns
`NULL` when it fails and the source tests `IS_ERR`, which is false of `NULL`:
whatever happens later in the call, a second allocation is requested after a
first one that returned `NULL`; and with the rest of the call succeeding, a
failed first, second or third allocation ends in the three allocation requests,
the writes of CTRL, KAR, IAR and OAR, a success return and no free at all. -/
theorem RunOp_misses_NULL_allocation :
    (∀ (d : SimpleAES) (mode : ORG_SIMPLE_OpMode) (key i_data : Nat → Nat) (env : RunOpEnv)
        (bus : Nat),
        (allocs (SimpleAES_RunOp d mode key i_data
            { env with key_alloc := some { cpu_addr := NULL, bus_addr := bus } }).events).take 2
          = [(.key, some { cpu_addr := NULL, bus_addr := bus }), (.input, env.input_alloc)])
      ∧ returnsNULL env_null_key.key_alloc = true
      ∧ ¬ allocFailsAt env_null_key .key
      ∧ (SimpleAES_RunOp dev_idle .ORG_SIMPLE_OPMODE_ENCRYPT bytes_id bytes_id
            env_null_key).ret = RESULT_BOOLERROR_OK true
      ∧ (allocs (SimpleAES_RunOp dev_idle .ORG_SIMPLE_OPMODE_ENCRYPT bytes_id bytes_id
            env_null_key).events).map Prod.fst = [.key, .input, .output]
      ∧ (regWrites (SimpleAES_RunOp dev_idle .ORG_SIMPLE_OPMODE_ENCRYPT bytes_id bytes_id
            env_null_key).events).map Prod.fst = [.CTRL, .CTRL, .KAR, .IAR, .OAR, .IRQ]
      ∧ freed (SimpleAES_RunOp dev_idle .ORG_SIMPLE_OPMODE_ENCRYPT bytes_id bytes_id
            env_null_key).events = []
      ∧ returnsNULL env_null_input.input_alloc = true
      ∧ (SimpleAES_RunOp dev_idle .ORG_SIMPLE_OPMODE_ENCRYPT bytes_id bytes_id
            env_null_input).ret = RESULT_BOOLERROR_OK true
      ∧ (allocs (SimpleAES_RunOp dev_idle .ORG_SIMPLE_OPMODE_ENCRYPT bytes_id bytes_id
            env_null_input).events).map Prod.fst = [.key, .input, .output]
      ∧ freed (SimpleAES_RunOp dev_idle .ORG_SIMPLE_OPMODE_ENCRYPT bytes_id bytes_id
            env_null_input).events = []
      ∧ returnsNULL env_null_output.output_alloc = true
      ∧ (SimpleAES_RunOp dev_idle .ORG_SIMPLE_OPMODE_ENCRYPT bytes_id bytes_id
            env_null_output).ret = RESULT_BOOLERROR_OK true
      ∧ (regWrites (SimpleAES_RunOp dev_idle .ORG_SIMPLE_OPMODE_ENCRYPT bytes_id bytes_id
            env_null_output).events).map Prod.fst = [.CTRL, .CTRL, .KAR, .IAR, .OAR, .IRQ]
      ∧ freed (SimpleAES_RunOp dev_idle .ORG_SIMPLE_OPMODE_ENCRYPT bytes_id bytes_id
            env_null_output).events = [] := by
  refine ⟨?_, ?_⟩
  · intro d mode key i_data env bus
    unfold SimpleAES_RunOp
    simp only
    cases env.input_alloc with
    | none => rfl
    | some ib =>
      cases env.output_alloc with
      | none => rfl
      | some ob =>
        simp only
        split_ifs <;> rfl
  · decide

end AESDriver
